import Mathlib

/-!
Shallow embedding of the nyaa terminal application's concurrent runtime
(src/app.rs and the widget input handlers), used to check the spec's claims
about the main event loop, the mode state machine, task orchestration,
batch maintenance and error handling.

Code translated from the repository sources where they are present
(src/app.rs, src/widget/results.rs, src/widget/batch.rs, src/util.rs).
Modules of the repository that are not under src/ (widget/mod.rs, sync.rs,
the client module, source/mod.rs, results.rs, widget/notifications.rs and
the popup widgets) are modelled from the spec; each such definition carries
a doc comment starting with `Modelled from the spec:`.
-/

namespace Nyaa

/-- LoadType from src/app.rs lines 63-73: which background operation to run. -/
inductive LoadType where
  | Sourcing
  | Searching
  | SolvingCaptcha (token : String)
  | Sorting
  | Filtering
  | Categorizing
  | Batching
  | Downloading
  deriving DecidableEq, Repr

/-- SortDir from src/widget/sort.rs (referenced by src/app.rs). -/
inductive SortDir where
  | Desc
  | Asc
  deriving DecidableEq, Repr

/-- Mode from src/app.rs lines 75-92: the mode state machine's states. -/
inductive Mode where
  | Normal
  | Loading (lt : LoadType)
  | KeyCombo (keys : String)
  | Search
  | Category
  | Sort (dir : SortDir)
  | Batch
  | Filter
  | Theme
  | Sources
  | Clients
  | Page
  | User
  | Help
  | Captcha
  deriving DecidableEq, Repr

/-- Modelled from the spec: Item (§3), declared in source/mod.rs which is not
under src/. One result entry with a stable identity, title and links plus
free-form extra key/value metadata. Display-only fields (icon, size, counters,
timestamp, category) are not needed by any claim and are omitted. -/
structure Item where
  id : String
  title : String
  torrent_link : String
  magnet_link : String
  post_link : String
  extra : List (String × String)
  deriving DecidableEq, Repr

/-- Modelled from the spec: ResultSet (§3), declared in results.rs which is
not under src/. Ordered items plus pagination metadata. -/
structure ResultsResponse where
  items : List Item
  last_page : Nat
  total_results : Nat
  deriving DecidableEq, Repr

/-- Modelled from the spec: the Results value held by Context (results.rs is
not under src/); src/app.rs and src/widget/results.rs access it through
`results.response`. -/
structure Results where
  response : ResultsResponse
  deriving DecidableEq, Repr

/-- Modelled from the spec: the default Results value (empty result set; the
test render in tests/popups.rs shows "Page 1/0 (0 total)"). -/
def Results.default : Results := ⟨⟨[], 0, 0⟩⟩

/-- Modelled from the spec: DownloadOutcome (§3), declared in the client
module which is not under src/. Field names follow the uses in src/app.rs
lines 426-441 (dl.batch, dl.success_ids, dl.success_msg, dl.errors). -/
structure DownloadResult where
  batch : Bool
  success_ids : List String
  success_msg : Option String
  errors : List String
  deriving DecidableEq, Repr

/-- SearchQuery, constructed in src/app.rs lines 355-362; its declaration is
in sync.rs which is not under src/, so the field types of the picker
selections are modelled as plain indices (spec §3 SearchQuery). -/
structure SearchQuery where
  query : String
  page : Nat
  category : Nat
  filter : Nat
  sort : Nat
  user : Option String
  deriving DecidableEq, Repr

/-- Modelled from the spec: the widget-local table selection helper
(VirtualStatefulTable, declared in widget/mod.rs which is not under src/).
Only the selection cell of the underlying TableState is modelled; offsets and
scrollbar state are display-only. -/
structure VirtualStatefulTable where
  selected : Option Nat
  deriving DecidableEq, Repr

/-- Modelled from the spec: a fresh table has no selection. -/
def VirtualStatefulTable.new : VirtualStatefulTable := ⟨none⟩

/-- Modelled from the spec: `select` stores the given index as the selection
(call sites in src pass explicit indices: `select(0)`,
`select(len.saturating_sub(1))`, `select(len - 1)`). -/
def VirtualStatefulTable.select (_t : VirtualStatefulTable) (i : Nat) :
    VirtualStatefulTable := ⟨some i⟩

/-- Modelled from the spec: `next` moves the selection by `amt`, wrapping
within `0..len`, starting from 0 when nothing is selected, and returns the
new selection; with `len = 0` the call leaves the table unchanged and
returns 0 (widget/mod.rs is not under src/). -/
def VirtualStatefulTable.next (t : VirtualStatefulTable) (len : Nat)
    (amt : Int) : VirtualStatefulTable × Nat :=
  if len = 0 then (t, 0)
  else
    let cur : Int := Int.ofNat (t.selected.getD 0)
    let i : Nat := ((cur + amt).emod (Int.ofNat len)).toNat
    (⟨some i⟩, i)

/-- Context from src/app.rs lines 159-181: the single mutable state blob owned
by the main loop. Fields that only feed rendering or external collaborators
(themes, src_info, theme, config contents, src, client identity, deltatime,
failed_config_load) are kept out of the embedding; `client_name` stands in for
the Display value of the selected download client used in notifications. -/
structure Context where
  mode : Mode
  load_type : Option LoadType
  page : Nat
  user : Option String
  batch : List Item
  last_key : String
  results : Results
  client_name : String
  errors : List String
  notifications : List String
  should_quit : Bool
  should_dismiss_notifications : Bool
  should_save_config : Bool
  deriving DecidableEq, Repr

/-- Context::default from src/app.rs lines 206-231. -/
def Context.default : Context where
  mode := Mode.Loading LoadType.Searching
  load_type := none
  page := 1
  user := none
  batch := []
  last_key := ""
  results := Results.default
  client_name := "Run Command"
  errors := []
  notifications := []
  should_quit := false
  should_dismiss_notifications := false
  should_save_config := false

/-- Context::show_error from src/app.rs lines 184-186. -/
def Context.show_error (ctx : Context) (e : String) : Context :=
  { ctx with errors := ctx.errors ++ [e] }

/-- Context::notify from src/app.rs lines 188-190. -/
def Context.notify (ctx : Context) (msg : String) : Context :=
  { ctx with notifications := ctx.notifications ++ [msg] }

/-- Context::dismiss_notifications from src/app.rs lines 192-194. -/
def Context.dismiss_notifications (ctx : Context) : Context :=
  { ctx with should_dismiss_notifications := true }

/-- Context::quit from src/app.rs lines 201-203. -/
def Context.quit (ctx : Context) : Context :=
  { ctx with should_quit := true }

/-- Key modifiers appearing in the handlers of src/widget/results.rs and
src/widget/batch.rs (crossterm KeyModifiers). -/
inductive KeyMods where
  | noMods
  | ctrl
  | shift
  | alt
  deriving DecidableEq, Repr

/-- Key codes appearing in the handlers of the embedded widgets
(crossterm KeyCode, restricted to the constructors those handlers match). -/
inductive KeyCode where
  | char (c : Char)
  | enter
  | esc
  | tab
  | backTab
  | left
  | right
  | up
  | down
  | backspace
  | fKey (n : Nat)
  deriving DecidableEq, Repr

/-- Terminal events delivered by the input reader (crossterm Event; only
key presses and the constructors the loop inspects are modelled; key-release
and repeat events are filtered out by every handler's KeyEventKind::Press
pattern and are represented by `other`). -/
inductive Event where
  | key (code : KeyCode) (mods : KeyMods)
  | focusLost
  | resize
  | other
  deriving DecidableEq, Repr

/-- Shared shape of the batch-toggle logic: remove the item's identity if
present, push the item otherwise. src/widget/results.rs writes this logic
twice, in try_select_toggle (lines 32-41) and inline in the plain-space arm
(lines 314-324); both instances are this function. -/
def toggleItemIntoBatch (batch : List Item) (item : Item) : List Item :=
  match batch.findIdx? (fun s => s.id = item.id) with
  | some p => batch.eraseIdx p
  | none => batch ++ [item]

/-- ResultsWidget state from src/widget/results.rs lines 19-24. -/
structure ResultsWidget where
  table : VirtualStatefulTable
  control_space : Bool
  visual_anchor : Nat
  deriving DecidableEq, Repr

/-- ResultsWidget::default from src/widget/results.rs lines 43-52. -/
def ResultsWidget.default : ResultsWidget where
  table := VirtualStatefulTable.new
  control_space := false
  visual_anchor := 0

/-- ResultsWidget::reset from src/widget/results.rs lines 27-30. -/
def ResultsWidget.reset (w : ResultsWidget) : ResultsWidget :=
  { w with table := w.table.select 0 }

/-- ResultsWidget::try_select_toggle from src/widget/results.rs lines 32-41. -/
def ResultsWidget.try_select_toggle (ctx : Context) (sel : Nat) : Context :=
  match ctx.results.response.items.get? sel with
  | some item => { ctx with batch := toggleItemIntoBatch ctx.batch item }
  | none => ctx

/-- BatchWidget state from src/widget/batch.rs lines 19-29. -/
structure BatchWidget where
  table : VirtualStatefulTable
  deriving DecidableEq, Repr

/-- BatchWidget::default from src/widget/batch.rs lines 23-29. -/
def BatchWidget.default : BatchWidget where
  table := VirtualStatefulTable.new

/-- Modelled from the spec: the search-input overlay widget state. The
src/widget/search.rs in the tree predates the App interface used by
src/app.rs (which reads `widgets.search.input.input`), so only the query
string the orchestrator snapshots is kept. -/
structure SearchWidget where
  input : String
  deriving DecidableEq, Repr

/-- Modelled from the spec: empty search input at startup. -/
def SearchWidget.default : SearchWidget where
  input := ""

/-- Modelled from the spec: NotificationWidget display state
(widget/notifications.rs is not under src/). The loop only consults
`is_animating`, `add_notification`, `add_error`, `dismiss_all` and
`update`; the drained messages and an animating flag are kept. -/
structure NotificationWidget where
  notifs : List String
  errs : List String
  animating : Bool
  deriving DecidableEq, Repr

/-- Modelled from the spec: no notifications at startup. -/
def NotificationWidget.default : NotificationWidget where
  notifs := []
  errs := []
  animating := false

/-- Modelled from the spec: adding a notification makes the transient UI
element animate. -/
def NotificationWidget.add_notification (w : NotificationWidget)
    (n : String) : NotificationWidget :=
  { w with notifs := w.notifs ++ [n], animating := true }

/-- Modelled from the spec: adding an error banner makes the transient UI
element animate. -/
def NotificationWidget.add_error (w : NotificationWidget)
    (e : String) : NotificationWidget :=
  { w with errs := w.errs ++ [e], animating := true }

/-- Modelled from the spec: dismissing clears all transient notifications. -/
def NotificationWidget.dismiss_all (w : NotificationWidget) :
    NotificationWidget :=
  { w with notifs := [], errs := [], animating := false }

/-- Selections of the picker popups (category, filter, sort) snapshotted
into a SearchQuery by src/app.rs lines 355-362; the popup widgets themselves
are not under src/, so their selections are modelled from the spec as plain
indices. -/
structure PopupSels where
  category : Nat
  filter : Nat
  sort : Nat
  deriving DecidableEq, Repr

/-- Modelled from the spec: default picker selections. -/
def PopupSels.default : PopupSels where
  category := 0
  filter := 0
  sort := 0

/-- The widget states src/app.rs dispatches into (the `widgets!` table at
src/app.rs lines 94-113), restricted to the widgets whose behaviour the
claims depend on, plus a `panicked` flag recording a Rust panic. -/
structure AppState where
  ctx : Context
  resultsW : ResultsWidget
  batchW : BatchWidget
  searchW : SearchWidget
  notifW : NotificationWidget
  popups : PopupSels
  panicked : Bool
  deriving DecidableEq, Repr

/-- key_to_string from src/util.rs lines 41-114, restricted to the key codes
of the embedding: a plain (or shifted) character returns the bare character,
every other key is wrapped as `<modifier-key>`. -/
def key_to_string (key : KeyCode) (modifier : KeyMods) : String :=
  let base : Option String :=
    match key with
    | KeyCode.backspace => some "BS"
    | KeyCode.enter => some "CR"
    | KeyCode.left => some "Left"
    | KeyCode.right => some "Right"
    | KeyCode.up => some "Up"
    | KeyCode.down => some "Down"
    | KeyCode.tab => some "Tab"
    | KeyCode.backTab => some "Tab"
    | KeyCode.fKey n => some ("F" ++ toString n)
    | KeyCode.char ' ' => some "Space"
    | KeyCode.char c =>
      match modifier with
      | KeyMods.noMods => none
      | KeyMods.shift => none
      | _ => some (String.mk [c])
    | KeyCode.esc => some "Esc"
  match key, base with
  | KeyCode.char c, none => String.mk [c]
  | _, some s =>
    let m :=
      match modifier with
      | KeyMods.ctrl => "C-"
      | KeyMods.shift => "S-"
      | KeyMods.alt => "A-"
      | _ => ""
    "<" ++ m ++ s ++ ">"
  | _, none => ""

/-- ResultsWidget::handle_event from src/widget/results.rs lines 173-340.
The external `open::that_detached` call in the `o` arm is an out-of-scope
collaborator and is modelled as succeeding (it only chooses between a
notification and an error banner). -/
def resultsHandleEvent (w : ResultsWidget) (ctx : Context) (e : Event) :
    ResultsWidget × Context :=
  match e with
  | Event.key code mods =>
    if code = KeyCode.char 'c' ∧ mods = KeyMods.noMods then
      (w, { ctx with mode := Mode.Category })
    else if code = KeyCode.char 's' ∧ mods = KeyMods.noMods then
      (w, { ctx with mode := Mode.Sort SortDir.Desc })
    else if code = KeyCode.char 'S' ∧ mods = KeyMods.shift then
      (w, { ctx with mode := Mode.Sort SortDir.Asc })
    else if code = KeyCode.char 'f' ∧ mods = KeyMods.noMods then
      (w, { ctx with mode := Mode.Filter })
    else if code = KeyCode.char 't' ∧ mods = KeyMods.noMods then
      (w, { ctx with mode := Mode.Theme })
    else if (code = KeyCode.char '/' ∨ code = KeyCode.char 'i') ∧
        mods = KeyMods.noMods then
      (w, { ctx with mode := Mode.Search })
    else if code = KeyCode.char 'p' ∧ mods = KeyMods.ctrl then
      (w, { ctx with mode := Mode.Page })
    else if (code = KeyCode.char 'p' ∨ code = KeyCode.char 'h' ∨
        code = KeyCode.left) ∧ mods = KeyMods.noMods then
      (w, prevPage ctx)
    else if (code = KeyCode.char 'n' ∨ code = KeyCode.char 'l' ∨
        code = KeyCode.right) ∧ mods = KeyMods.noMods then
      (w, nextPage ctx)
    else if code = KeyCode.char 'r' ∧ mods = KeyMods.noMods then
      (w, { ctx with mode := Mode.Loading LoadType.Searching })
    else if code = KeyCode.char 'q' ∧ mods = KeyMods.noMods then
      (w, ctx.quit)
    else if (code = KeyCode.char 'j' ∨ code = KeyCode.down) ∧
        mods = KeyMods.noMods then
      moveSel ctx w 1
    else if (code = KeyCode.char 'k' ∨ code = KeyCode.up) ∧
        mods = KeyMods.noMods then
      moveSel ctx w (-1)
    else if code = KeyCode.char 'J' ∧ mods = KeyMods.shift then
      ({ w with table := (w.table.next ctx.results.response.items.length 4).1 }, ctx)
    else if code = KeyCode.char 'K' ∧ mods = KeyMods.shift then
      ({ w with table := (w.table.next ctx.results.response.items.length (-4)).1 }, ctx)
    else if code = KeyCode.char 'G' ∧ mods = KeyMods.shift then
      ({ w with table := w.table.select (ctx.results.response.items.length - 1) }, ctx)
    else if code = KeyCode.char 'g' ∧ mods = KeyMods.noMods then
      ({ w with table := w.table.select 0 }, ctx)
    else if (code = KeyCode.char 'H' ∨ code = KeyCode.char 'P') ∧
        mods = KeyMods.shift then
      (w, firstPage ctx)
    else if (code = KeyCode.char 'L' ∨ code = KeyCode.char 'N') ∧
        mods = KeyMods.shift then
      (w, lastPage ctx)
    else if code = KeyCode.enter ∧ mods = KeyMods.noMods then
      (w, { ctx with mode := Mode.Loading LoadType.Downloading })
    else if code = KeyCode.char 's' ∧ mods = KeyMods.ctrl then
      (w, { ctx with mode := Mode.Sources })
    else if code = KeyCode.char 'd' ∧ mods = KeyMods.noMods then
      (w, { ctx with mode := Mode.Clients })
    else if code = KeyCode.char 'u' ∧ mods = KeyMods.noMods then
      (w, { ctx with mode := Mode.User })
    else if code = KeyCode.char 'o' ∧ mods = KeyMods.noMods then
      let link :=
        ((ctx.results.response.items.get? (w.table.selected.getD 0)).map
          (fun item => item.post_link)).getD "https://nyaa.si"
      (w, ctx.notify ("Opened " ++ link))
    else if code = KeyCode.char 'y' ∧ mods = KeyMods.noMods then
      (w, { ctx with mode := Mode.KeyCombo "y" })
    else if code = KeyCode.char ' ' ∧ mods = KeyMods.ctrl then
      let cs := !w.control_space
      if cs then
        let anchor := w.table.selected.getD 0
        let w2 := { w with control_space := cs, visual_anchor := anchor }
        (w2, ResultsWidget.try_select_toggle
          (ctx.notify "Entered VISUAL mode") anchor)
      else
        ({ w with control_space := cs, visual_anchor := 0 },
          ctx.notify "Exited VISUAL mode")
    else if code = KeyCode.char ' ' ∧ mods = KeyMods.noMods then
      match w.table.selected with
      | some sel =>
        match ctx.results.response.items.get? sel with
        | some item => (w, { ctx with batch := toggleItemIntoBatch ctx.batch item })
        | none => (w, ctx)
      | none => (w, ctx)
    else if code = KeyCode.tab ∨ code = KeyCode.backTab then
      (w, { ctx with mode := Mode.Batch })
    else if code = KeyCode.esc ∧ mods = KeyMods.noMods then
      if w.control_space then
        ({ w with visual_anchor := 0, control_space := false },
          ctx.notify "Exited VISUAL mode")
      else (w, ctx.dismiss_notifications)
    else (w, ctx)
  | _ => (w, ctx)
where
  /-- p/h/Left arm, src/widget/results.rs lines 204-209. -/
  prevPage (ctx : Context) : Context :=
    if ctx.page > 1 then
      { ctx with page := ctx.page - 1, mode := Mode.Loading LoadType.Searching }
    else ctx
  /-- n/l/Right arm, src/widget/results.rs lines 210-215. -/
  nextPage (ctx : Context) : Context :=
    if ctx.page < ctx.results.response.last_page then
      { ctx with page := ctx.page + 1, mode := Mode.Loading LoadType.Searching }
    else ctx
  /-- H/P arm, src/widget/results.rs lines 261-266. -/
  firstPage (ctx : Context) : Context :=
    if ctx.page ≠ 1 then
      { ctx with page := 1, mode := Mode.Loading LoadType.Searching }
    else ctx
  /-- L/N arm, src/widget/results.rs lines 267-274. -/
  lastPage (ctx : Context) : Context :=
    if ctx.page ≠ ctx.results.response.last_page ∧
        ctx.results.response.last_page > 0 then
      { ctx with page := ctx.results.response.last_page,
                 mode := Mode.Loading LoadType.Searching }
    else ctx
  /-- j/k arms, src/widget/results.rs lines 222-247: move the selection and,
  in visual mode, toggle the item left behind or newly reached depending on
  the side of the anchor. -/
  moveSel (ctx : Context) (w : ResultsWidget) (amt : Int) :
      ResultsWidget × Context :=
    let prev := w.table.selected.getD 0
    let res := w.table.next ctx.results.response.items.length amt
    let w2 := { w with table := res.1 }
    let selected := res.2
    if w.control_space ∧ prev ≠ selected then
      let target :=
        if amt ≥ 0 then (if selected ≤ w.visual_anchor then prev else selected)
        else (if selected ≥ w.visual_anchor then prev else selected)
      (w2, ResultsWidget.try_select_toggle ctx target)
    else (w2, ctx)

/-- BatchWidget::handle_event from src/widget/batch.rs lines 101-148. The two
spots where the Rust code can panic are made explicit: `G` computes
`ctx.batch.len() - 1` (usize underflow on an empty batch) and the space arm
calls `ctx.batch.remove(i)` with the previously stored selection (index out
of bounds when `i` is not below the batch length). -/
def batchHandleEvent (w : BatchWidget) (ctx : Context) (e : Event) :
    BatchWidget × Context × Bool :=
  match e with
  | Event.key code mods =>
    if code = KeyCode.esc ∨ code = KeyCode.tab ∨ code = KeyCode.backTab then
      (w, { ctx with mode := Mode.Normal }, false)
    else if code = KeyCode.char 'q' ∧ mods = KeyMods.noMods then
      (w, ctx.quit, false)
    else if (code = KeyCode.char 'j' ∨ code = KeyCode.down) ∧
        mods = KeyMods.noMods then
      ({ w with table := (w.table.next ctx.batch.length 1).1 }, ctx, false)
    else if (code = KeyCode.char 'k' ∨ code = KeyCode.up) ∧
        mods = KeyMods.noMods then
      ({ w with table := (w.table.next ctx.batch.length (-1)).1 }, ctx, false)
    else if code = KeyCode.char 'J' ∧ mods = KeyMods.shift then
      ({ w with table := (w.table.next ctx.batch.length 4).1 }, ctx, false)
    else if code = KeyCode.char 'K' ∧ mods = KeyMods.shift then
      ({ w with table := (w.table.next ctx.batch.length (-4)).1 }, ctx, false)
    else if code = KeyCode.char 'g' ∧ mods = KeyMods.noMods then
      ({ w with table := w.table.select 0 }, ctx, false)
    else if code = KeyCode.char 'G' ∧ mods = KeyMods.shift then
      if ctx.batch.length = 0 then (w, ctx, true)
      else ({ w with table := w.table.select (ctx.batch.length - 1) }, ctx, false)
    else if code = KeyCode.char ' ' ∧ mods = KeyMods.noMods then
      match w.table.selected with
      | some i =>
        let w2 := { w with table := (w.table.next ctx.batch.length 0).1 }
        if i < ctx.batch.length then
          let ctx2 := { ctx with batch := ctx.batch.eraseIdx i }
          ({ w2 with table := (w2.table.next ctx2.batch.length 0).1 }, ctx2, false)
        else (w2, ctx, true)
      | none => (w, ctx, false)
    else if code = KeyCode.char 'a' ∧ mods = KeyMods.ctrl then
      (w, { ctx with mode := Mode.Loading LoadType.Batching }, false)
    else (w, ctx, false)
  | _ => (w, ctx, false)

/-- Modelled from the spec: the search-input overlay's input handling
(§4.4, §4.1; src/widget/search.rs predates the current App interface).
Escape returns to Normal, Enter requests a search, characters edit the
query; the batch is never touched. -/
def searchHandleEvent (sw : SearchWidget) (ctx : Context) (e : Event) :
    SearchWidget × Context :=
  match e with
  | Event.key KeyCode.esc KeyMods.noMods => (sw, { ctx with mode := Mode.Normal })
  | Event.key KeyCode.enter KeyMods.noMods =>
    (sw, { ctx with mode := Mode.Loading LoadType.Searching })
  | Event.key (KeyCode.char c) KeyMods.noMods =>
    ({ sw with input := sw.input ++ String.mk [c] }, ctx)
  | Event.key (KeyCode.char c) KeyMods.shift =>
    ({ sw with input := sw.input ++ String.mk [c] }, ctx)
  | _ => (sw, ctx)

/-- Modelled from the spec: LoadKind requested when a picker overlay confirms
a choice (§3 LoadKind, §4.1: overlay states are peers of Normal and resolve
into a Loading request or a dismissal). -/
def popupConfirmKind : Mode → Mode
  | Mode.Category => Mode.Loading LoadType.Categorizing
  | Mode.Sort _ => Mode.Loading LoadType.Sorting
  | Mode.Filter => Mode.Loading LoadType.Filtering
  | Mode.Sources => Mode.Loading LoadType.Sourcing
  | Mode.Page => Mode.Loading LoadType.Searching
  | Mode.User => Mode.Loading LoadType.Searching
  | _ => Mode.Normal

/-- Modelled from the spec: input handling of the overlay popups (their
widget files are not under src/). Escape dismisses back to Normal, Enter
confirms the pick (entering the corresponding Loading mode for the pickers
that trigger a reload); all other keys change only popup-local state, never
the Context, and in particular no overlay touches the batch (§3, §4.4). -/
def popupHandleEvent (ctx : Context) (e : Event) : Context :=
  match e with
  | Event.key KeyCode.esc KeyMods.noMods => { ctx with mode := Mode.Normal }
  | Event.key KeyCode.enter KeyMods.noMods => { ctx with mode := popupConfirmKind ctx.mode }
  | _ => ctx

/-- App::on_combo from src/app.rs lines 554-603. The external clipboard call
is an out-of-scope collaborator modelled as succeeding (it only chooses
between a notification and an error banner). -/
def onCombo (st : AppState) (keys0 : String) (e : Event) : AppState :=
  match e with
  | Event.key KeyCode.esc _ =>
    { st with ctx := { st.ctx with mode := Mode.Normal } }
  | _ =>
    let keys :=
      match e with
      | Event.key (KeyCode.char c) _ => keys0 ++ String.mk [c]
      | _ => keys0
    let ctx := { st.ctx with last_key := keys }
    match keys.toList with
    | ['y', c] =>
      let s := st.resultsW.table.selected.getD 0
      let ctx := { ctx with mode := Mode.Normal }
      match ctx.results.response.items.get? s with
      | some item =>
        let link? : Option String :=
          match c with
          | 't' => some item.torrent_link
          | 'm' => some item.magnet_link
          | 'p' => some item.post_link
          | 'i' => (item.extra.lookup "imdb")
          | _ => none
        match c, link? with
        | 'i', none =>
          { st with ctx := ctx.show_error "No imdb ID found for this item." }
        | _, some link =>
          { st with ctx :=
              ctx.notify ("Copied \"" ++ link ++ "\" to clipboard") }
        | _, none => { st with ctx := ctx }
      | none =>
        if c = 't' ∨ c = 'm' ∨ c = 'p' ∨ c = 'i' then
          { st with ctx := ctx.show_error "Failed to copy:\nFailed to get item" }
        else { st with ctx := ctx }
    | _ => { st with ctx := { ctx with mode := Mode.KeyCombo keys } }

/-- App::on_help from src/app.rs lines 527-544. -/
def onHelp (st : AppState) (e : Event) : AppState :=
  match e with
  | Event.key (KeyCode.char '?') _ =>
    if st.ctx.mode ≠ Mode.Search then
      { st with ctx := { st.ctx with mode := Mode.Help } }
    else st
  | Event.key (KeyCode.fKey 1) _ =>
    { st with ctx := { st.ctx with mode := Mode.Help } }
  | _ => st

/-- Dispatch of the `widgets!` table from src/app.rs lines 94-113: the mode
selects which widget receives the event (overlay modes go to their popups;
KeyCombo and Loading never reach this table, they are filtered in App::on). -/
def widgetsHandleEvent (st : AppState) (e : Event) : AppState :=
  match st.ctx.mode with
  | Mode.Batch =>
    let r := batchHandleEvent st.batchW st.ctx e
    { st with batchW := r.1, ctx := r.2.1, panicked := st.panicked || r.2.2 }
  | Mode.Search =>
    let r := searchHandleEvent st.searchW st.ctx e
    { st with searchW := r.1, ctx := r.2 }
  | Mode.Normal =>
    let r := resultsHandleEvent st.resultsW st.ctx e
    { st with resultsW := r.1, ctx := r.2 }
  | Mode.KeyCombo _ => st
  | Mode.Loading _ => st
  | _ => { st with ctx := popupHandleEvent st.ctx e }

/-- Last-key bookkeeping of App::on (src/app.rs lines 492-516): on a key
press the displayed last key becomes the pending combo (in KeyCombo mode) or
the textual form of the key. -/
def updateLastKey (st : AppState) (e : Event) : AppState :=
  match e with
  | Event.key code mods =>
    match st.ctx.mode with
    | Mode.KeyCombo keys =>
      { st with ctx := { st.ctx with last_key := keys } }
    | _ =>
      { st with ctx := { st.ctx with last_key := key_to_string code mods } }
  | _ => st

/-- Mode-directed dispatch of App::on (src/app.rs lines 517-521): KeyCombo
events go to the combo handler, Loading swallows input, everything else goes
through the widget dispatch table. -/
def dispatchEvent (st : AppState) (e : Event) : AppState :=
  match st.ctx.mode with
  | Mode.KeyCombo keys => onCombo st keys e
  | Mode.Loading _ => st
  | _ => widgetsHandleEvent st e

/-- Help hook of App::on (src/app.rs lines 522-524). -/
def maybeHelp (st : AppState) (e : Event) : AppState :=
  if st.ctx.mode ≠ Mode.Help then onHelp st e else st

/-- App::on from src/app.rs lines 482-525: last-key bookkeeping, then the
mode-directed dispatch, then the help hook. The TEST-only FocusLost shortcut
is omitted (TEST is false in production) and the unix Ctrl-Z job-control arm
suspends and resumes the terminal externally, returning with the state
unchanged. -/
def onEvent (st : AppState) (e : Event) : AppState :=
  match e with
  | Event.key (KeyCode.char 'z') KeyMods.ctrl => st
  | _ => maybeHelp (dispatchEvent (updateLastKey st e) e) e

/-- Outcome a search task sends on the result channel
(Result of SourceResults from sync.rs, matched in src/app.rs lines 403-421). -/
inductive SearchOutcome where
  | ok (r : Results)
  | captcha
  | err (e : String)
  deriving DecidableEq, Repr

/-- One spawned search/sort/filter/categorize task: its abort-handle identity
and the immutable SearchQuery snapshot it was given
(src/app.rs lines 349-374). -/
structure SearchTask where
  id : Nat
  query : SearchQuery
  load_type : LoadType
  deriving DecidableEq, Repr

/-- The whole state of App::run_app (src/app.rs lines 234-453): widget and
context state, the three mpsc channels (each a queue plus a closed flag; the
result and download senders are retained by the loop itself, so no step ever
closes those two channels), the outstanding search tasks with the last abort
handle, a count of outstanding download tasks, and ghost fields recording
every task spawn (`spawnLog`) and the page of every search result applied to
the result set (`appliedPages`). -/
structure LoopState where
  app : AppState
  evtQueue : List Event
  evtClosed : Bool
  resQueue : List (SearchQuery × SearchOutcome)
  resClosed : Bool
  dlQueue : List DownloadResult
  dlClosed : Bool
  searchTasks : List SearchTask
  last_load_abort : Option Nat
  nextTaskId : Nat
  pendingDownloads : Nat
  spawnLog : List LoadType
  appliedPages : List Nat
  halted : Option String
  deriving DecidableEq, Repr

/-- Notification drain of src/app.rs lines 279-285: each queued notification
is added to the notification widget, then the queue is cleared. -/
def drainNotifs (s : LoopState) : LoopState :=
  if s.app.ctx.notifications ≠ [] then
    { s with
      app := { s.app with
        notifW := (s.app.ctx.notifications.foldl
          NotificationWidget.add_notification s.app.notifW),
        ctx := { s.app.ctx with notifications := [] } } }
  else s

/-- Error drain of src/app.rs lines 286-292: each queued error is added to
the notification widget as its own error banner, then the queue is cleared. -/
def drainErrors (s : LoopState) : LoopState :=
  if s.app.ctx.errors ≠ [] then
    { s with
      app := { s.app with
        notifW := (s.app.ctx.errors.foldl
          NotificationWidget.add_error s.app.notifW),
        ctx := { s.app.ctx with errors := [] } } }
  else s

/-- Dismissal of src/app.rs lines 293-296. -/
def applyDismiss (s : LoopState) : LoopState :=
  if s.app.ctx.should_dismiss_notifications then
    { s with
      app := { s.app with
        notifW := s.app.notifW.dismiss_all,
        ctx := { s.app.ctx with should_dismiss_notifications := false } } }
  else s

/-- Batch-mode normalization of src/app.rs lines 297-299: Mode falls back
from Batch to Normal whenever the batch is empty. -/
def normalizeBatchMode (s : LoopState) : LoopState :=
  if s.app.ctx.mode = Mode.Batch ∧ s.app.ctx.batch.isEmpty then
    { s with app := { s.app with ctx := { s.app.ctx with mode := Mode.Normal } } }
  else s

/-- Top of each while-iteration of src/app.rs lines 273-302: opportunistic
config store (external, no modelled state), draining the notification and
error queues into the notification widget, honoring a pending dismissal, and
resetting Mode from Batch to Normal when the batch is empty. The subsequent
get_help and terminal.draw are render-only. -/
def iterTop (s : LoopState) : LoopState :=
  normalizeBatchMode (applyDismiss (drainErrors (drainNotifs s)))

/-- Loading-mode dispatch from src/app.rs lines 303-376: when Mode is
Loading(load_type) the mode is reset to Normal first; Downloading and
Batching spawn a download task (counted in `pendingDownloads`) and skip the
select; every other kind records the outstanding load, aborts the previous
search task, snapshots a SearchQuery and spawns a new task. The Bool is the
`continue` (skip the select, redraw). `src.apply` on Sourcing resets the
picker selections (modelled from the spec: the source module is not under
src/). -/
def loadingDispatch (s : LoopState) : LoopState × Bool :=
  match s.app.ctx.mode with
  | Mode.Loading load_type =>
    let s := { s with app := { s.app with ctx := { s.app.ctx with mode := Mode.Normal } } }
    match load_type with
    | LoadType.Downloading =>
      match s.app.resultsW.table.selected.bind
          (fun i => s.app.ctx.results.response.items.get? i) with
      | some _item =>
        ({ s with
            pendingDownloads := s.pendingDownloads + 1,
            spawnLog := s.spawnLog ++ [LoadType.Downloading],
            app := { s.app with ctx := (s.app.ctx.notify
              ("Downloading torrent with " ++ s.app.ctx.client_name)) } }, true)
      | none => (s, true)
    | LoadType.Batching =>
      ({ s with
          pendingDownloads := s.pendingDownloads + 1,
          spawnLog := s.spawnLog ++ [LoadType.Batching],
          app := { s.app with ctx := (s.app.ctx.notify
            ("Downloading " ++ toString s.app.ctx.batch.length ++
              " torrents with " ++ s.app.ctx.client_name)) } }, true)
    | _ =>
      let s :=
        match load_type with
        | LoadType.Sourcing => { s with app := { s.app with popups := PopupSels.default } }
        | _ => s
      let s := { s with app := { s.app with ctx :=
        { s.app.ctx with load_type := some load_type } } }
      let s :=
        match s.last_load_abort with
        | some h => { s with searchTasks := s.searchTasks.filter (fun t => t.id ≠ h) }
        | none => s
      let search : SearchQuery :=
        { query := s.app.searchW.input
          page := s.app.ctx.page
          category := s.app.popups.category
          filter := s.app.popups.filter
          sort := s.app.popups.sort
          user := s.app.ctx.user }
      ({ s with
          searchTasks := s.searchTasks ++ [⟨s.nextTaskId, search, load_type⟩],
          last_load_abort := some s.nextTaskId,
          nextTaskId := s.nextTaskId + 1,
          spawnLog := s.spawnLog ++ [load_type] }, true)
  | _ => (s, false)

/-- Per-poll environment of the select: whether the 5 ms animation timer has
expired, whether terminal.size() succeeded, and what
NotificationWidget::update returned (the animation's real-time progress,
external to the embedding). -/
structure PollEnv where
  timerExpired : Bool
  sizeOk : Bool
  updateChanged : Bool
  deriving DecidableEq, Repr

/-- Which branch one poll of the biased tokio::select! of src/app.rs lines
379-446 resolves to: branches are polled in declaration order (input event,
animation tick, search outcome, download outcome); the else branch fires only
when every branch is disabled (a closed, drained channel disables its recv
branch; a false precondition disables the tick branch); otherwise, with no
branch ready, the select blocks. -/
inductive SelectChoice where
  | evt (e : Event)
  | tick
  | res (m : SearchQuery × SearchOutcome)
  | dl (d : DownloadResult)
  | fatal
  | blocked
  deriving DecidableEq, Repr

/-- Resolution of one poll of the biased select (src/app.rs lines 379-446). -/
def selectOnce (s : LoopState) (p : PollEnv) : SelectChoice :=
  match s.evtQueue with
  | e :: _ => SelectChoice.evt e
  | [] =>
    if s.app.notifW.animating ∧ p.timerExpired then SelectChoice.tick
    else
      match s.resQueue with
      | m :: _ => SelectChoice.res m
      | [] =>
        match s.dlQueue with
        | d :: _ => SelectChoice.dl d
        | [] =>
          if s.evtClosed ∧ ¬s.app.notifW.animating ∧ s.resClosed ∧ s.dlClosed
          then SelectChoice.fatal
          else SelectChoice.blocked

/-- Search-outcome handling from src/app.rs lines 403-425: a successful
result resets the results table and replaces the result set wholesale; a
captcha clears the results and opens the captcha overlay; an error clears
the result set and enqueues the error; in every case the outstanding-load
marker and the abort handle are cleared. -/
def handleResMsg (s : LoopState) (m : SearchQuery × SearchOutcome) : LoopState :=
  let s :=
    match m.2 with
    | SearchOutcome.ok r =>
      { s with
        app := { s.app with
          resultsW := s.app.resultsW.reset,
          ctx := { s.app.ctx with results := r } },
        appliedPages := s.appliedPages ++ [m.1.page] }
    | SearchOutcome.captcha =>
      { s with app := { s.app with ctx :=
        { s.app.ctx with results := Results.default, mode := Mode.Captcha } } }
    | SearchOutcome.err e =>
      { s with app := { s.app with ctx :=
        ({ s.app.ctx with results := Results.default }).show_error e } }
  { s with
    app := { s.app with ctx := { s.app.ctx with load_type := none } },
    last_load_abort := none }

/-- Download-outcome handling from src/app.rs lines 426-441: for a batch
outcome every succeeded identity is retained out of the batch; a success
message (when present and something succeeded) becomes a notification; every
per-item error is surfaced separately. -/
def handleDl (s : LoopState) (d : DownloadResult) : LoopState :=
  let ctx := s.app.ctx
  let ctx :=
    if d.batch then
      { ctx with batch := (d.success_ids.foldl
          (fun b id => b.filter (fun i => i.id ≠ id)) ctx.batch) }
    else ctx
  let ctx :=
    if d.success_ids ≠ [] then
      match d.success_msg with
      | some m => ctx.notify m
      | none => ctx
    else ctx
  let ctx := d.errors.foldl Context.show_error ctx
  { s with app := { s.app with ctx := ctx } }

/-- Result of handling one resolved select branch: the branch either breaks
out of the wait (to redraw) or continues waiting (an animation tick whose
update reported no change), or the select is blocked with nothing ready, or
the fatal else branch fired. -/
inductive InnerOut where
  | broke (s : LoopState)
  | contin (s : LoopState)
  | blockedOut (s : LoopState)
  | fatalOut (s : LoopState)
  deriving Repr

/-- One poll of the inner wait loop of src/app.rs lines 378-447: the input,
search-outcome and download-outcome branches always `break`; the animation
tick resets the timer and breaks only when terminal.size() fails or
NotificationWidget::update reports a change, otherwise the loop selects
again; the else branch returns the fatal "All channels closed" error. -/
def innerStep (s : LoopState) (p : PollEnv) : InnerOut :=
  match selectOnce s p with
  | SelectChoice.evt e =>
    InnerOut.broke { s with
      evtQueue := s.evtQueue.tail,
      app := onEvent s.app e }
  | SelectChoice.tick =>
    if p.sizeOk then
      if p.updateChanged then InnerOut.broke s else InnerOut.contin s
    else InnerOut.broke s
  | SelectChoice.res m =>
    InnerOut.broke (handleResMsg { s with resQueue := s.resQueue.tail } m)
  | SelectChoice.dl d =>
    InnerOut.broke (handleDl { s with dlQueue := s.dlQueue.tail } d)
  | SelectChoice.fatal =>
    InnerOut.fatalOut { s with halted := some "All channels closed" }
  | SelectChoice.blocked => InnerOut.blockedOut s

/-- The inner wait loop (src/app.rs lines 378-447), driven by a finite list
of poll environments; when the polls run out (or the select blocks) the loop
is still waiting and the state is returned as is. -/
def innerLoop (s : LoopState) : List PollEnv → LoopState
  | [] => s
  | p :: rest =>
    match innerStep s p with
    | InnerOut.broke s2 => s2
    | InnerOut.contin s2 => innerLoop s2 rest
    | InnerOut.blockedOut s2 => s2
    | InnerOut.fatalOut s2 => s2

/-- One full iteration of the while loop of src/app.rs lines 273-451: nothing
happens after a fatal exit or once should_quit is set; otherwise the
iteration top runs, then the Loading dispatch (whose `continue` skips the
wait), then the inner wait loop. -/
def iterateLoop (s : LoopState) (polls : List PollEnv) : LoopState :=
  if s.halted ≠ none then s
  else if s.app.ctx.should_quit then s
  else
    let s1 := iterTop s
    let r := loadingDispatch s1
    if r.2 then r.1 else innerLoop r.1 polls

/-- Actions of the concurrent environment interleaved with loop iterations:
the input reader delivers an event or terminates (closing its channel; the
result and download senders are clones the loop retains, so those channels
are never closed by any action), a live (non-aborted) search task completes
and sends its one outcome, an outstanding download task completes and sends
its one outcome, or the control loop runs one while-iteration. -/
inductive Act where
  | deliverEvent (e : Event)
  | closeEvents
  | searchCompletes (tid : Nat) (o : SearchOutcome)
  | dlCompletes (d : DownloadResult)
  | iter (polls : List PollEnv)

/-- One environment or loop step. An aborted search task is gone from
`searchTasks`, so `searchCompletes` for it finds nothing to deliver: a
canceled task never sends (tokio abort); a task that already sent has its
message sitting in `resQueue` regardless. -/
def step (s : LoopState) : Act → LoopState
  | Act.deliverEvent e =>
    if s.evtClosed then s else { s with evtQueue := s.evtQueue ++ [e] }
  | Act.closeEvents => { s with evtClosed := true }
  | Act.searchCompletes tid o =>
    match s.searchTasks.find? (fun t => t.id = tid) with
    | some t =>
      { s with
        searchTasks := s.searchTasks.filter (fun u => u.id ≠ tid),
        resQueue := s.resQueue ++ [(t.query, o)] }
    | none => s
  | Act.dlCompletes d =>
    if s.pendingDownloads > 0 then
      { s with
        pendingDownloads := s.pendingDownloads - 1,
        dlQueue := s.dlQueue ++ [d] }
    else s
  | Act.iter polls => iterateLoop s polls

/-- A run of the system: fold the steps over an action sequence. -/
def run (s : LoopState) (acts : List Act) : LoopState :=
  acts.foldl step s

/-- The state right after startup (src/app.rs lines 239-271): default
Context (whose mode is Loading(Searching), the implicit initial search),
default widgets, empty channels, no tasks. Config loading is external; its
defaults are the modelled defaults. -/
def initState : LoopState where
  app :=
    { ctx := Context.default
      resultsW := ResultsWidget.default
      batchW := BatchWidget.default
      searchW := SearchWidget.default
      notifW := NotificationWidget.default
      popups := PopupSels.default
      panicked := false }
  evtQueue := []
  evtClosed := false
  resQueue := []
  resClosed := false
  dlQueue := []
  dlClosed := false
  searchTasks := []
  last_load_abort := none
  nextTaskId := 0
  pendingDownloads := 0
  spawnLog := []
  appliedPages := []
  halted := none

/-! ### Concrete fixtures used by witnesses and counterexamples -/

/-- Sample result item "a". -/
def itemA : Item := ⟨"a", "Item A", "ta", "ma", "pa", []⟩

/-- Sample result item "b". -/
def itemB : Item := ⟨"b", "Item B", "tb", "mb", "pb", []⟩

/-- Sample result item "c". -/
def itemC : Item := ⟨"c", "Item C", "tc", "mc", "pc", []⟩

/-- Sample result item "d". -/
def itemD : Item := ⟨"d", "Item D", "td", "md", "pd", []⟩

/-- Sample result item "e". -/
def itemE : Item := ⟨"e", "Item E", "te", "me", "pe", []⟩

/-- Sample immutable query snapshot. -/
def sampleQuery : SearchQuery := ⟨"", 1, 0, 0, 0, none⟩

/-- An idle state: Normal mode, a five-item single-page result set with the
first row selected, nothing queued on any channel. -/
def idleState : LoopState :=
  { initState with
    app := { initState.app with
      ctx := { Context.default with
        mode := Mode.Normal
        results := ⟨⟨[itemA, itemB, itemC, itemD, itemE], 1, 5⟩⟩ }
      resultsW := { ResultsWidget.default with table := ⟨some 0⟩ } } }

/-- A poll environment in which the animation timer has not expired. -/
def quietPoll : PollEnv := ⟨false, true, true⟩

/-- A poll environment in which the animation timer has expired but the
notification update reports no change. -/
def tickNoChangePoll : PollEnv := ⟨true, true, false⟩

/-! ### Helper lemmas -/

/-- The retain-per-succeeded-id loop of src/app.rs lines 428-430 computes the
filter that keeps exactly the items whose identity is not in the list. -/
theorem retain_foldl_eq_filter (ids : List String) (l : List Item) :
    ids.foldl (fun b id => b.filter (fun i => i.id ≠ id)) l
      = l.filter (fun i => !ids.contains i.id) := by
  induction ids generalizing l with
  | nil => simp
  | cons a ids ih =>
    simp only [List.foldl_cons, ih, List.filter_filter]
    apply List.filter_congr
    intro x _
    by_cases h : x.id = a <;> simp [h, List.contains_cons]

/-- Folding show_error over a list of errors appends them, one entry each. -/
theorem foldl_show_error (es : List String) (ctx : Context) :
    (es.foldl Context.show_error ctx).errors = ctx.errors ++ es := by
  induction es generalizing ctx with
  | nil => simp
  | cons e es ih => simp [List.foldl_cons, ih, Context.show_error]

/-- Folding show_error changes nothing but the error queue. -/
theorem foldl_show_error_batch (es : List String) (ctx : Context) :
    (es.foldl Context.show_error ctx).batch = ctx.batch ∧
    (es.foldl Context.show_error ctx).notifications = ctx.notifications ∧
    (es.foldl Context.show_error ctx).mode = ctx.mode ∧
    (es.foldl Context.show_error ctx).results = ctx.results := by
  induction es generalizing ctx with
  | nil => exact ⟨rfl, rfl, rfl, rfl⟩
  | cons e es ih => simpa [List.foldl_cons, Context.show_error] using ih _

/-! ### C3: download-outcome handling -/

/-- C3: for every received download outcome, a batch outcome removes exactly
the batch items whose identity appears in the succeeded-identity list
(keeping the remaining items in order) and a non-batch outcome leaves the
batch unchanged; every per-item error of the outcome is appended to the
error queue as its own entry (each becomes a separate error notification
when the queue is drained at the top of the next iteration); the result set
is untouched. -/
theorem c3_download_outcome (s : LoopState) (d : DownloadResult) :
    (handleDl s d).app.ctx.batch =
      (if d.batch then
        s.app.ctx.batch.filter (fun i => !d.success_ids.contains i.id)
      else s.app.ctx.batch) ∧
    (handleDl s d).app.ctx.errors = s.app.ctx.errors ++ d.errors ∧
    (handleDl s d).app.ctx.results = s.app.ctx.results := by
  unfold handleDl
  have h1 := foldl_show_error_batch d.errors
  have h2 := foldl_show_error d.errors
  have h3 := retain_foldl_eq_filter d.success_ids s.app.ctx.batch
  rcases hm : d.success_msg with _ | m <;> rcases hb : d.batch with _ | _ <;>
    by_cases hs : d.success_ids = [] <;>
      simp_all [Context.notify]

/-! ### C7: failed search/sort/filter/categorize outcome -/

/-- C7: when a search/sort/filter/categorize task delivers an error outcome,
the loop clears the result set to empty, appends the error to the display
queue, clears the outstanding-load marker and the abort handle, and retries
nothing: no task is spawned, the live task list is untouched and the mode is
unchanged (so the next iteration's Loading dispatch does not fire), and the
rest of the context (batch, page) is left exactly as it was. -/
theorem c7_search_error_rollback (s : LoopState) (q : SearchQuery) (e : String) :
    (handleResMsg s (q, SearchOutcome.err e)).app.ctx.results = Results.default ∧
    (handleResMsg s (q, SearchOutcome.err e)).app.ctx.errors = s.app.ctx.errors ++ [e] ∧
    (handleResMsg s (q, SearchOutcome.err e)).app.ctx.load_type = none ∧
    (handleResMsg s (q, SearchOutcome.err e)).last_load_abort = none ∧
    (handleResMsg s (q, SearchOutcome.err e)).spawnLog = s.spawnLog ∧
    (handleResMsg s (q, SearchOutcome.err e)).searchTasks = s.searchTasks ∧
    (handleResMsg s (q, SearchOutcome.err e)).app.ctx.mode = s.app.ctx.mode ∧
    (handleResMsg s (q, SearchOutcome.err e)).app.ctx.batch = s.app.ctx.batch ∧
    (handleResMsg s (q, SearchOutcome.err e)).app.ctx.page = s.app.ctx.page ∧
    (handleResMsg s (q, SearchOutcome.err e)).appliedPages = s.appliedPages := by
  simp [handleResMsg, Context.show_error]

/-! ### C9: biased select priority -/

/-- C9: the biased select resolves pending work in strict descending
priority: a pending input event always wins; with no input pending, an
animation tick fires (only while a notification is animating and its timer
has expired); below that a completed search/sort/filter/categorize outcome;
below that a completed download outcome. In particular whenever an input
event is pending it is consumed before any pending background-result
message, whatever sits in the result and download queues. -/
theorem c9_select_priority (s : LoopState) (p : PollEnv) :
    (∀ e rest, s.evtQueue = e :: rest → selectOnce s p = SelectChoice.evt e) ∧
    (s.evtQueue = [] → s.app.notifW.animating = true → p.timerExpired = true →
      selectOnce s p = SelectChoice.tick) ∧
    (∀ m rest, s.evtQueue = [] →
      ¬(s.app.notifW.animating = true ∧ p.timerExpired = true) →
      s.resQueue = m :: rest → selectOnce s p = SelectChoice.res m) ∧
    (∀ d rest, s.evtQueue = [] →
      ¬(s.app.notifW.animating = true ∧ p.timerExpired = true) →
      s.resQueue = [] → s.dlQueue = d :: rest →
      selectOnce s p = SelectChoice.dl d) := by
  refine ⟨?_, ?_, ?_, ?_⟩ <;> intros <;> simp_all [selectOnce]

/-- Witness for C9: each priority level exercised at a concrete state. -/
theorem c9_select_priority_witness :
    selectOnce { idleState with
        evtQueue := [Event.resize],
        resQueue := [(sampleQuery, SearchOutcome.captcha)] } quietPoll
      = SelectChoice.evt Event.resize ∧
    selectOnce { idleState with
        app := { idleState.app with
          notifW := { NotificationWidget.default with animating := true } },
        resQueue := [(sampleQuery, SearchOutcome.captcha)] } tickNoChangePoll
      = SelectChoice.tick ∧
    selectOnce { idleState with
        resQueue := [(sampleQuery, SearchOutcome.captcha)],
        dlQueue := [⟨true, [], none, []⟩] } quietPoll
      = SelectChoice.res (sampleQuery, SearchOutcome.captcha) ∧
    selectOnce { idleState with dlQueue := [⟨true, [], none, []⟩] } quietPoll
      = SelectChoice.dl ⟨true, [], none, []⟩ := by
  refine ⟨(c9_select_priority _ _).1 _ _ rfl,
    (c9_select_priority _ _).2.1 rfl (by decide) (by decide),
    (c9_select_priority _ _).2.2.1 _ _ rfl (by decide) rfl,
    (c9_select_priority _ _).2.2.2 _ _ rfl (by decide) rfl rfl⟩

/-! ### C6: all-channels-closed fatal error -/

/-- A state in which the input reader has terminated (its channel is closed)
and nothing else is happening: no queued messages, no animation, the result
and download channels still open because the loop retains their senders. -/
def inputClosedState : LoopState :=
  { idleState with evtClosed := true }

/-- Counterexample to C6: with the input source channel closed and no other
activity, the select resolves to `blocked` (every recv is pending, no branch
is disabled besides the input and tick branches), not to the fatal else
branch: a loop iteration leaves the loop un-halted, i.e. the program hangs
in the wait instead of returning the "All channels closed" error claimed. -/
theorem c6_counterexample :
    selectOnce inputClosedState quietPoll = SelectChoice.blocked ∧
    (iterateLoop inputClosedState [quietPoll]).halted = none := by
  exact ⟨rfl, rfl⟩

/-- C6 (amended): the fatal "All channels closed" exit fires exactly when
every branch of the select is disabled — all three channels closed and
drained and no animation running. Closing only the input channel leaves the
result/download recv branches pending (their senders are retained by the
loop itself and no step ever closes them), so the select blocks instead. -/
theorem c6_amended (s : LoopState) (p : PollEnv)
    (hq : s.evtQueue = []) (ha : s.app.notifW.animating = false)
    (hr : s.resQueue = []) (hd : s.dlQueue = [])
    (he : s.evtClosed = true) :
    (s.resClosed = true → s.dlClosed = true →
      innerStep s p = InnerOut.fatalOut
        { s with halted := some "All channels closed" }) ∧
    (s.resClosed = false →
      selectOnce s p = SelectChoice.blocked) := by
  constructor
  · intro h1 h2
    simp_all [innerStep, selectOnce]
  · intro h1
    simp_all [selectOnce]

/-- Witness for C6 (amended): both conjuncts exercised at concrete states. -/
theorem c6_amended_witness :
    innerStep { idleState with
        evtClosed := true, resClosed := true, dlClosed := true } quietPoll
      = InnerOut.fatalOut { idleState with
          evtClosed := true, resClosed := true, dlClosed := true,
          halted := some "All channels closed" } ∧
    selectOnce inputClosedState quietPoll = SelectChoice.blocked := by
  refine ⟨(c6_amended _ quietPoll rfl rfl rfl rfl rfl).1 rfl rfl, ?_⟩
  exact (c6_amended inputClosedState quietPoll rfl rfl rfl rfl rfl).2 rfl

/-! ### C8: one unit of work, then break and redraw -/

/-- A state whose notification widget is animating and whose channels are
otherwise idle, so an expired animation timer is the selected branch. -/
def animatingState : LoopState :=
  { idleState with
    app := { idleState.app with
      notifW := { NotificationWidget.default with animating := true } } }

/-- Counterexample to C8: an animation tick is a unit of work (the timer
branch fires and the timer is reset), yet when NotificationWidget::update
returns false the branch does not `break`: the loop keeps waiting inside the
select without performing a redraw, so not every handled unit of work is
followed by breaking out of the wait and redrawing. -/
theorem c8_counterexample :
    selectOnce animatingState tickNoChangePoll = SelectChoice.tick ∧
    innerStep animatingState tickNoChangePoll = InnerOut.contin animatingState := by
  exact ⟨rfl, rfl⟩

/-- C8 (amended): handling an input event, a search outcome or a download
outcome always breaks out of the multiplexed wait (after which the loop
performs a full redraw at the top of the next iteration); an animation tick
breaks only when the terminal size read fails or the notification update
reports a change — when the update reports no change the loop continues the
wait without redrawing. -/
theorem c8_amended (s : LoopState) (p : PollEnv) :
    (∀ e, selectOnce s p = SelectChoice.evt e →
      innerStep s p = InnerOut.broke
        { s with evtQueue := s.evtQueue.tail, app := onEvent s.app e }) ∧
    (∀ m, selectOnce s p = SelectChoice.res m →
      innerStep s p = InnerOut.broke
        (handleResMsg { s with resQueue := s.resQueue.tail } m)) ∧
    (∀ d, selectOnce s p = SelectChoice.dl d →
      innerStep s p = InnerOut.broke
        (handleDl { s with dlQueue := s.dlQueue.tail } d)) ∧
    (selectOnce s p = SelectChoice.tick →
      innerStep s p =
        (if p.sizeOk then
          (if p.updateChanged then InnerOut.broke s else InnerOut.contin s)
        else InnerOut.broke s)) := by
  refine ⟨?_, ?_, ?_, ?_⟩ <;> intros <;> simp_all [innerStep]

/-- Witness for C8 (amended): the event, result, download and tick branches
exercised at concrete states. -/
theorem c8_amended_witness :
    innerStep { idleState with evtQueue := [Event.resize] } quietPoll
      = InnerOut.broke { idleState with
          evtQueue := [],
          app := onEvent idleState.app Event.resize } ∧
    innerStep { idleState with
        resQueue := [(sampleQuery, SearchOutcome.captcha)] } quietPoll
      = InnerOut.broke (handleResMsg idleState
          (sampleQuery, SearchOutcome.captcha)) ∧
    innerStep { idleState with dlQueue := [⟨true, [], none, []⟩] } quietPoll
      = InnerOut.broke (handleDl idleState ⟨true, [], none, []⟩) ∧
    innerStep animatingState tickNoChangePoll = InnerOut.contin animatingState := by
  refine ⟨(c8_amended _ _).1 _ rfl, ?_, ?_, ?_⟩
  · exact (c8_amended _ _).2.1 (sampleQuery, SearchOutcome.captcha) rfl
  · exact (c8_amended _ _).2.2.1 ⟨true, [], none, []⟩ rfl
  · exact (c8_amended animatingState tickNoChangePoll).2.2.2 rfl

/-! ### C2: Loading-dispatch protocol -/

/-- The iteration top never records a task spawn and never changes the mode
away from (or into) a Loading variant. -/
theorem iterTop_spawnLog (s : LoopState) :
    (iterTop s).spawnLog = s.spawnLog ∧
    (iterTop s).app.ctx.mode = s.app.ctx.mode ∨
    (iterTop s).spawnLog = s.spawnLog ∧
    s.app.ctx.mode = Mode.Batch ∧ (iterTop s).app.ctx.mode = Mode.Normal := by
  unfold iterTop normalizeBatchMode applyDismiss drainErrors drainNotifs
  split <;> split <;> split <;> split <;> simp_all

/-- Handling a search outcome never records a task spawn. -/
theorem handleResMsg_spawnLog (s : LoopState) (m : SearchQuery × SearchOutcome) :
    (handleResMsg s m).spawnLog = s.spawnLog := by
  unfold handleResMsg
  rcases m with ⟨q, o⟩
  cases o <;> rfl

/-- Handling a download outcome never records a task spawn. -/
theorem handleDl_spawnLog (s : LoopState) (d : DownloadResult) :
    (handleDl s d).spawnLog = s.spawnLog := by
  unfold handleDl
  split <;> split <;> rfl

/-- No branch of the inner wait loop records a task spawn. -/
theorem innerStep_spawnLog (s : LoopState) (p : PollEnv) :
    (match innerStep s p with
      | InnerOut.broke s2 => s2.spawnLog = s.spawnLog
      | InnerOut.contin s2 => s2.spawnLog = s.spawnLog
      | InnerOut.blockedOut s2 => s2.spawnLog = s.spawnLog
      | InnerOut.fatalOut s2 => s2.spawnLog = s.spawnLog) := by
  unfold innerStep
  cases h : selectOnce s p <;>
    simp [handleResMsg_spawnLog, handleDl_spawnLog]
  by_cases h1 : p.sizeOk = true <;> by_cases h2 : p.updateChanged = true <;>
    simp [h1, h2]

/-- The inner wait loop records no task spawn however many polls it takes. -/
theorem innerLoop_spawnLog (polls : List PollEnv) (s : LoopState) :
    (innerLoop s polls).spawnLog = s.spawnLog := by
  induction polls generalizing s with
  | nil => rfl
  | cons p rest ih =>
    have h := innerStep_spawnLog s p
    unfold innerLoop
    cases hs : innerStep s p <;> simp_all

/-- C2: whenever the loop observes Mode = Loading(kind) it resets Mode to
Normal before spawning the corresponding background task, within that same
dispatch; the dispatch records at most one task spawn, and dispatching the
resulting state again is a no-op (no Loading mode is ever dispatched twice).
Conversely, entering a Loading variant is the only trigger that starts a
background task: on a state whose mode is not Loading the dispatch does
nothing and a whole loop iteration records no task spawn at all. -/
theorem c2_loading_dispatch (s : LoopState) :
    (∀ k, s.app.ctx.mode = Mode.Loading k →
      (loadingDispatch s).1.app.ctx.mode = Mode.Normal ∧
      (loadingDispatch s).1.spawnLog.length ≤ s.spawnLog.length + 1 ∧
      loadingDispatch ((loadingDispatch s).1) = ((loadingDispatch s).1, false)) ∧
    ((∀ k, s.app.ctx.mode ≠ Mode.Loading k) →
      loadingDispatch s = (s, false) ∧
      ∀ polls, (iterateLoop s polls).spawnLog = s.spawnLog) := by
  constructor
  · intro k hk
    obtain ⟨⟨ctx, rwi, bw, sw, nw, pp, pk⟩, eq_, ec, rq, rc, dq, dc, ts, la, ni, pd, sl, ap, ha⟩ := s
    obtain ⟨m, lt, pg, us, ba, lk, rs, cn, er, no, qy, dm, sv⟩ := ctx
    dsimp only at hk
    subst hk
    rcases la with _ | h <;> cases k <;>
      rcases hsel : rwi.table.selected.bind
        (fun i => rs.response.items.get? i) with _ | it <;>
      refine ⟨?_, ?_, ?_⟩ <;>
        simp only [loadingDispatch, Context.notify, hsel] <;>
        simp [loadingDispatch, Context.notify, hsel]
  · intro hk
    have hdisp : loadingDispatch s = (s, false) := by
      unfold loadingDispatch
      cases hm : s.app.ctx.mode <;> first | rfl | exact absurd hm (hk _)
    refine ⟨hdisp, ?_⟩
    intro polls
    unfold iterateLoop
    split
    · rfl
    split
    · rfl
    rcases iterTop_spawnLog s with ⟨h1, h2⟩ | ⟨h1, h2, h3⟩
    · have hdisp2 : loadingDispatch (iterTop s) = (iterTop s, false) := by
        unfold loadingDispatch
        cases hm : (iterTop s).app.ctx.mode <;>
          first | rfl | exact absurd (h2.symm.trans hm) (hk _)
      simp [hdisp2, innerLoop_spawnLog, h1]
    · have hdisp2 : loadingDispatch (iterTop s) = (iterTop s, false) := by
        unfold loadingDispatch
        cases hm : (iterTop s).app.ctx.mode <;>
          first | rfl | simp [hm] at h3
      simp [hdisp2, innerLoop_spawnLog, h1]

/-- Witness for C2: the dispatch protocol at a concrete Loading state and
the no-spawn property at a concrete Normal state. -/
theorem c2_loading_dispatch_witness :
    (loadingDispatch { idleState with
        app := { idleState.app with
          ctx := { idleState.app.ctx with
            mode := Mode.Loading LoadType.Searching } } }).1.app.ctx.mode
      = Mode.Normal ∧
    (iterateLoop idleState [quietPoll]).spawnLog = idleState.spawnLog := by
  constructor
  · exact ((c2_loading_dispatch _).1 LoadType.Searching rfl).1
  · exact (((c2_loading_dispatch idleState).2 (fun _ h => Mode.noConfusion h)).2 [quietPoll])

/-! ### C4: toggling twice -/

/-- Toggling an item whose identity is absent pushes it at the end. -/
theorem toggle_not_mem (l : List Item) (item : Item)
    (h : item.id ∉ l.map (fun i => i.id)) :
    toggleItemIntoBatch l item = l ++ [item] := by
  unfold toggleItemIntoBatch
  have hf : l.findIdx? (fun s => s.id = item.id) = none := by
    rw [List.findIdx?_eq_none_iff]
    intro x hx
    simp only [decide_eq_false_iff_not]
    intro he
    exact h (List.mem_map.mpr ⟨x, hx, he⟩)
  rw [hf]

/-- Toggling walks past a head with a different identity. -/
theorem toggle_cons_ne (x item : Item) (l : List Item) (h : ¬x.id = item.id) :
    toggleItemIntoBatch (x :: l) item = x :: toggleItemIntoBatch l item := by
  unfold toggleItemIntoBatch
  rw [List.findIdx?_cons, if_neg (by simp [h])]
  cases hf : l.findIdx? (fun s => s.id = item.id) with
  | none => simp [hf]
  | some p => simp [hf, List.eraseIdx_cons_succ]

/-- Core of C4 on the shared toggle logic: with no duplicate identities,
toggling the same item twice restores the multiset of identities; it
restores the batch exactly when the identity was absent (push then remove),
and when the identity was present at position p the result is the batch
with position p erased and the current item appended at the end. -/
theorem toggle_twice (l : List Item) (item : Item)
    (h : (l.map (fun i => i.id)).Nodup) :
    ((toggleItemIntoBatch (toggleItemIntoBatch l item) item).map
        (fun i => i.id)).Perm (l.map (fun i => i.id)) ∧
    (item.id ∉ l.map (fun i => i.id) →
      toggleItemIntoBatch (toggleItemIntoBatch l item) item = l) ∧
    (∀ p, l.findIdx? (fun s => s.id = item.id) = some p →
      toggleItemIntoBatch (toggleItemIntoBatch l item) item
        = l.eraseIdx p ++ [item]) := by
  induction l with
  | nil =>
    refine ⟨?_, ?_, ?_⟩
    · simp [toggleItemIntoBatch]
    · intro _
      simp [toggleItemIntoBatch]
    · intro p hp
      simp [toggleItemIntoBatch] at hp
  | cons x xs ih =>
    simp only [List.map_cons, List.nodup_cons] at h
    obtain ⟨hx_not, hxs⟩ := h
    by_cases hx : x.id = item.id
    · have h1 : toggleItemIntoBatch (x :: xs) item = xs := by
        unfold toggleItemIntoBatch
        rw [List.findIdx?_cons, if_pos (by simp [hx])]
        simp
      have hnotmem : item.id ∉ xs.map (fun i => i.id) := hx ▸ hx_not
      have h2 := toggle_not_mem xs item hnotmem
      refine ⟨?_, ?_, ?_⟩
      · rw [h1, h2]
        simp only [List.map_append, List.map_cons, List.map_nil]
        rw [hx]
        exact List.perm_append_singleton _ _
      · intro habs
        exact absurd (by simp [hx]) habs
      · intro p hp
        rw [List.findIdx?_cons, if_pos (by simp [hx])] at hp
        cases hp
        rw [h1, h2]
        simp
    · have h1 := toggle_cons_ne x item xs hx
      have h2 := toggle_cons_ne x item (toggleItemIntoBatch xs item) hx
      obtain ⟨ih1, ih2, ih3⟩ := ih hxs
      refine ⟨?_, ?_, ?_⟩
      · rw [h1, h2]
        simpa using ih1
      · intro habs
        rw [h1, h2, ih2 (fun hm => habs (by simp [hm]))]
      · intro p hp
        rw [List.findIdx?_cons, if_neg (by simp [hx])] at hp
        rw [List.findIdx?_start_succ] at hp
        rcases Option.map_eq_some'.mp hp with ⟨p', hp', rfl⟩
        rw [h1, h2, ih3 p' hp']
        simp [List.eraseIdx_cons_succ]

/-- A context whose batch holds items a and b (in that order) while item a is
the currently selected result row. -/
def c4Ctx : Context :=
  { Context.default with
    mode := Mode.Normal
    batch := [itemA, itemB]
    results := ⟨⟨[itemA, itemB, itemC, itemD, itemE], 1, 5⟩⟩ }

/-- The application state around `c4Ctx`, with result row 0 selected. -/
def c4App : AppState :=
  { ctx := c4Ctx
    resultsW := { ResultsWidget.default with table := ⟨some 0⟩ }
    batchW := BatchWidget.default
    searchW := SearchWidget.default
    notifW := NotificationWidget.default
    popups := PopupSels.default
    panicked := false }

/-- Counterexample to C4: with batch [a, b] and item a selected, pressing
space twice (the batch-membership toggle, dispatched through App::on in
Normal mode) yields [b, a]: the item is removed from its position and
re-pushed at the end, so the batch, an ordered sequence, does not return to
its prior state. -/
theorem c4_counterexample :
    (onEvent (onEvent c4App (Event.key (KeyCode.char ' ') KeyMods.noMods))
        (Event.key (KeyCode.char ' ') KeyMods.noMods)).ctx.batch
      = [itemB, itemA] ∧
    c4App.ctx.batch = [itemA, itemB] ∧
    (onEvent (onEvent c4App (Event.key (KeyCode.char ' ') KeyMods.noMods))
        (Event.key (KeyCode.char ' ') KeyMods.noMods)).ctx.batch
      ≠ c4App.ctx.batch := by
  refine ⟨by decide, by decide, by decide⟩

/-- C4 (amended): toggling the currently selected result item twice in
succession (same selection, same result set, no other batch mutation in
between, batch identities duplicate-free) returns the batch to its prior
state up to order: the multiset of identities is restored; the batch itself
is restored exactly when the selected item's identity was not in the batch,
and when it was present at position p the result is the prior batch with
position p removed and the currently selected item appended at the end. -/
theorem c4_amended (ctx : Context) (sel : Nat) (item : Item)
    (hsel : ctx.results.response.items.get? sel = some item)
    (hnodup : (ctx.batch.map (fun i => i.id)).Nodup) :
    (((ResultsWidget.try_select_toggle
        (ResultsWidget.try_select_toggle ctx sel) sel).batch.map
          (fun i => i.id)).Perm (ctx.batch.map (fun i => i.id))) ∧
    (item.id ∉ ctx.batch.map (fun i => i.id) →
      (ResultsWidget.try_select_toggle
        (ResultsWidget.try_select_toggle ctx sel) sel).batch = ctx.batch) ∧
    (∀ p, ctx.batch.findIdx? (fun s => s.id = item.id) = some p →
      (ResultsWidget.try_select_toggle
        (ResultsWidget.try_select_toggle ctx sel) sel).batch
        = ctx.batch.eraseIdx p ++ [item]) := by
  unfold ResultsWidget.try_select_toggle
  rw [hsel]
  dsimp only
  rw [hsel]
  dsimp only
  exact toggle_twice ctx.batch item hnodup

/-- Witness for C4 (amended): toggling item a (absent from the batch) twice
at a concrete state restores the batch exactly. -/
theorem c4_amended_witness :
    (ResultsWidget.try_select_toggle (ResultsWidget.try_select_toggle
        { c4Ctx with batch := [itemB] } 0) 0).batch = [itemB] := by
  exact (c4_amended { c4Ctx with batch := [itemB] } 0 itemA (by decide)
    (by decide)).2.1 (by decide)

/-! ### C5: no duplicate identities in the batch -/

/-- The batch holds no two items with the same identity. -/
def NodupIds (l : List Item) : Prop :=
  (l.map (fun i => i.id)).Nodup

/-- Erasing a position preserves distinctness of identities. -/
theorem nodupIds_eraseIdx (l : List Item) (i : Nat) (h : NodupIds l) :
    NodupIds (l.eraseIdx i) :=
  h.sublist ((List.eraseIdx_sublist l i).map _)

/-- Filtering preserves distinctness of identities. -/
theorem nodupIds_filter (l : List Item) (p : Item → Bool) (h : NodupIds l) :
    NodupIds (l.filter p) :=
  h.sublist ((List.filter_sublist l).map _)

/-- The toggle preserves distinctness of identities: it only ever pushes an
item whose identity is not yet present. -/
theorem toggle_nodup (l : List Item) (item : Item) (h : NodupIds l) :
    NodupIds (toggleItemIntoBatch l item) := by
  unfold toggleItemIntoBatch
  cases hf : l.findIdx? (fun s => s.id = item.id) with
  | some p => exact nodupIds_eraseIdx l p h
  | none =>
    have hnm : item.id ∉ l.map (fun i => i.id) := by
      rw [List.findIdx?_eq_none_iff] at hf
      intro hm
      rcases List.mem_map.mp hm with ⟨x, hx, hxe⟩
      simpa [hxe] using hf x hx
    unfold NodupIds
    rw [List.map_append]
    simp only [List.map_cons, List.map_nil]
    exact List.Nodup.append h (List.nodup_singleton _)
      (by simpa [List.disjoint_singleton] using hnm)

/-- try_select_toggle preserves distinctness of identities. -/
theorem try_select_toggle_nodup (ctx : Context) (sel : Nat)
    (h : NodupIds ctx.batch) :
    NodupIds (ResultsWidget.try_select_toggle ctx sel).batch := by
  unfold ResultsWidget.try_select_toggle
  split
  · exact toggle_nodup _ _ h
  · exact h

/-- The page-change helpers never touch the batch. -/
theorem pageHelpers_batch (ctx : Context) :
    (resultsHandleEvent.prevPage ctx).batch = ctx.batch ∧
    (resultsHandleEvent.nextPage ctx).batch = ctx.batch ∧
    (resultsHandleEvent.firstPage ctx).batch = ctx.batch ∧
    (resultsHandleEvent.lastPage ctx).batch = ctx.batch := by
  unfold resultsHandleEvent.prevPage resultsHandleEvent.nextPage
    resultsHandleEvent.firstPage resultsHandleEvent.lastPage
  refine ⟨?_, ?_, ?_, ?_⟩ <;> split <;> rfl

/-- Visual-mode navigation preserves distinctness of identities. -/
theorem moveSel_nodup (ctx : Context) (w : ResultsWidget) (amt : Int)
    (h : NodupIds ctx.batch) :
    NodupIds (resultsHandleEvent.moveSel ctx w amt).2.batch := by
  unfold resultsHandleEvent.moveSel
  dsimp only
  split
  · exact try_select_toggle_nodup _ _ h
  · exact h

set_option maxHeartbeats 2000000 in
/-- The results-pane handler preserves distinctness of identities: the only
batch mutations it performs are the guarded toggle (space and visual mode)
and nothing else. -/
theorem resultsHandleEvent_nodup (w : ResultsWidget) (ctx : Context)
    (e : Event) (h : NodupIds ctx.batch) :
    NodupIds (resultsHandleEvent w ctx e).2.batch := by
  have hp := pageHelpers_batch ctx
  unfold resultsHandleEvent
  split
  case _ code mods =>
    by_cases hc1 : code = KeyCode.char 'c' ∧ mods = KeyMods.noMods
    · rw [if_pos hc1]
      exact h
    rw [if_neg hc1]
    by_cases hc2 : code = KeyCode.char 's' ∧ mods = KeyMods.noMods
    · rw [if_pos hc2]
      exact h
    rw [if_neg hc2]
    by_cases hc3 : code = KeyCode.char 'S' ∧ mods = KeyMods.shift
    · rw [if_pos hc3]
      exact h
    rw [if_neg hc3]
    by_cases hc4 : code = KeyCode.char 'f' ∧ mods = KeyMods.noMods
    · rw [if_pos hc4]
      exact h
    rw [if_neg hc4]
    by_cases hc5 : code = KeyCode.char 't' ∧ mods = KeyMods.noMods
    · rw [if_pos hc5]
      exact h
    rw [if_neg hc5]
    by_cases hc6 : (code = KeyCode.char '/' ∨ code = KeyCode.char 'i') ∧ mods = KeyMods.noMods
    · rw [if_pos hc6]
      exact h
    rw [if_neg hc6]
    by_cases hc7 : code = KeyCode.char 'p' ∧ mods = KeyMods.ctrl
    · rw [if_pos hc7]
      exact h
    rw [if_neg hc7]
    by_cases hc8 : (code = KeyCode.char 'p' ∨ code = KeyCode.char 'h' ∨ code = KeyCode.left) ∧ mods = KeyMods.noMods
    · rw [if_pos hc8]
      simp only [hp.1]; exact h
    rw [if_neg hc8]
    by_cases hc9 : (code = KeyCode.char 'n' ∨ code = KeyCode.char 'l' ∨ code = KeyCode.right) ∧ mods = KeyMods.noMods
    · rw [if_pos hc9]
      simp only [hp.2.1]; exact h
    rw [if_neg hc9]
    by_cases hc10 : code = KeyCode.char 'r' ∧ mods = KeyMods.noMods
    · rw [if_pos hc10]
      exact h
    rw [if_neg hc10]
    by_cases hc11 : code = KeyCode.char 'q' ∧ mods = KeyMods.noMods
    · rw [if_pos hc11]
      dsimp only [Context.quit]; exact h
    rw [if_neg hc11]
    by_cases hc12 : (code = KeyCode.char 'j' ∨ code = KeyCode.down) ∧ mods = KeyMods.noMods
    · rw [if_pos hc12]
      exact moveSel_nodup _ _ _ h
    rw [if_neg hc12]
    by_cases hc13 : (code = KeyCode.char 'k' ∨ code = KeyCode.up) ∧ mods = KeyMods.noMods
    · rw [if_pos hc13]
      exact moveSel_nodup _ _ _ h
    rw [if_neg hc13]
    by_cases hc14 : code = KeyCode.char 'J' ∧ mods = KeyMods.shift
    · rw [if_pos hc14]
      exact h
    rw [if_neg hc14]
    by_cases hc15 : code = KeyCode.char 'K' ∧ mods = KeyMods.shift
    · rw [if_pos hc15]
      exact h
    rw [if_neg hc15]
    by_cases hc16 : code = KeyCode.char 'G' ∧ mods = KeyMods.shift
    · rw [if_pos hc16]
      exact h
    rw [if_neg hc16]
    by_cases hc17 : code = KeyCode.char 'g' ∧ mods = KeyMods.noMods
    · rw [if_pos hc17]
      exact h
    rw [if_neg hc17]
    by_cases hc18 : (code = KeyCode.char 'H' ∨ code = KeyCode.char 'P') ∧ mods = KeyMods.shift
    · rw [if_pos hc18]
      simp only [hp.2.2.1]; exact h
    rw [if_neg hc18]
    by_cases hc19 : (code = KeyCode.char 'L' ∨ code = KeyCode.char 'N') ∧ mods = KeyMods.shift
    · rw [if_pos hc19]
      simp only [hp.2.2.2]; exact h
    rw [if_neg hc19]
    by_cases hc20 : code = KeyCode.enter ∧ mods = KeyMods.noMods
    · rw [if_pos hc20]
      exact h
    rw [if_neg hc20]
    by_cases hc21 : code = KeyCode.char 's' ∧ mods = KeyMods.ctrl
    · rw [if_pos hc21]
      exact h
    rw [if_neg hc21]
    by_cases hc22 : code = KeyCode.char 'd' ∧ mods = KeyMods.noMods
    · rw [if_pos hc22]
      exact h
    rw [if_neg hc22]
    by_cases hc23 : code = KeyCode.char 'u' ∧ mods = KeyMods.noMods
    · rw [if_pos hc23]
      exact h
    rw [if_neg hc23]
    by_cases hc24 : code = KeyCode.char 'o' ∧ mods = KeyMods.noMods
    · rw [if_pos hc24]
      dsimp only [Context.notify]; exact h
    rw [if_neg hc24]
    by_cases hc25 : code = KeyCode.char 'y' ∧ mods = KeyMods.noMods
    · rw [if_pos hc25]
      exact h
    rw [if_neg hc25]
    by_cases hc26 : code = KeyCode.char ' ' ∧ mods = KeyMods.ctrl
    · rw [if_pos hc26]
      dsimp only [Context.notify]
      split
      · exact try_select_toggle_nodup _ _ h
      · exact h
    rw [if_neg hc26]
    by_cases hc27 : code = KeyCode.char ' ' ∧ mods = KeyMods.noMods
    · rw [if_pos hc27]
      split <;> (try split) <;> first | exact h | exact toggle_nodup _ _ h
    rw [if_neg hc27]
    by_cases hc28 : code = KeyCode.tab ∨ code = KeyCode.backTab
    · rw [if_pos hc28]
      exact h
    rw [if_neg hc28]
    by_cases hc29 : code = KeyCode.esc ∧ mods = KeyMods.noMods
    · rw [if_pos hc29]
      split <;> (try dsimp only [Context.notify, Context.dismiss_notifications]) <;> exact h
    rw [if_neg hc29]
    exact h
  · exact h

set_option maxHeartbeats 2000000 in
/-- The batch-pane handler only ever removes items from the batch. -/
theorem batchHandleEvent_nodup (w : BatchWidget) (ctx : Context) (e : Event)
    (h : NodupIds ctx.batch) :
    NodupIds (batchHandleEvent w ctx e).2.1.batch := by
  unfold batchHandleEvent
  split
  case _ code mods =>
    by_cases hb1 : code = KeyCode.esc ∨ code = KeyCode.tab ∨ code = KeyCode.backTab
    · rw [if_pos hb1]
      exact h
    rw [if_neg hb1]
    by_cases hb2 : code = KeyCode.char 'q' ∧ mods = KeyMods.noMods
    · rw [if_pos hb2]
      dsimp only [Context.quit]; exact h
    rw [if_neg hb2]
    by_cases hb3 : (code = KeyCode.char 'j' ∨ code = KeyCode.down) ∧ mods = KeyMods.noMods
    · rw [if_pos hb3]
      exact h
    rw [if_neg hb3]
    by_cases hb4 : (code = KeyCode.char 'k' ∨ code = KeyCode.up) ∧ mods = KeyMods.noMods
    · rw [if_pos hb4]
      exact h
    rw [if_neg hb4]
    by_cases hb5 : code = KeyCode.char 'J' ∧ mods = KeyMods.shift
    · rw [if_pos hb5]
      exact h
    rw [if_neg hb5]
    by_cases hb6 : code = KeyCode.char 'K' ∧ mods = KeyMods.shift
    · rw [if_pos hb6]
      exact h
    rw [if_neg hb6]
    by_cases hb7 : code = KeyCode.char 'g' ∧ mods = KeyMods.noMods
    · rw [if_pos hb7]
      exact h
    rw [if_neg hb7]
    by_cases hb8 : code = KeyCode.char 'G' ∧ mods = KeyMods.shift
    · rw [if_pos hb8]
      split <;> exact h
    rw [if_neg hb8]
    by_cases hb9 : code = KeyCode.char ' ' ∧ mods = KeyMods.noMods
    · rw [if_pos hb9]
      split <;> (try split) <;> first | exact h | exact nodupIds_eraseIdx _ _ h
    rw [if_neg hb9]
    by_cases hb10 : code = KeyCode.char 'a' ∧ mods = KeyMods.ctrl
    · rw [if_pos hb10]
      exact h
    rw [if_neg hb10]
    exact h
  · exact h

/-- The search-input handler never touches the batch. -/
theorem searchHandleEvent_batch (sw : SearchWidget) (ctx : Context)
    (e : Event) : (searchHandleEvent sw ctx e).2.batch = ctx.batch := by
  unfold searchHandleEvent
  split <;> rfl

/-- The popup handlers never touch the batch. -/
theorem popupHandleEvent_batch (ctx : Context) (e : Event) :
    (popupHandleEvent ctx e).batch = ctx.batch := by
  unfold popupHandleEvent
  split <;> rfl

set_option maxHeartbeats 2000000 in
/-- The key-combo handler never touches the batch. -/
theorem onCombo_batch (st : AppState) (keys : String) (e : Event) :
    (onCombo st keys e).ctx.batch = st.ctx.batch := by
  unfold onCombo
  split
  · rfl
  · dsimp only
    split <;>
      first
      | rfl
      | (split <;>
          first
          | rfl
          | (split <;> simp [Context.show_error, Context.notify])
          | simp [Context.show_error, Context.notify])

/-- The help-key hook never touches the batch. -/
theorem onHelp_batch (st : AppState) (e : Event) :
    (onHelp st e).ctx.batch = st.ctx.batch := by
  unfold onHelp
  split <;> first | rfl | (split <;> rfl)

/-- The widget dispatch table preserves distinctness of identities. -/
theorem widgetsHandleEvent_nodup (st : AppState) (e : Event)
    (h : NodupIds st.ctx.batch) :
    NodupIds (widgetsHandleEvent st e).ctx.batch := by
  unfold widgetsHandleEvent
  split
  · exact batchHandleEvent_nodup _ _ _ h
  · rw [searchHandleEvent_batch]
    exact h
  · exact resultsHandleEvent_nodup _ _ _ h
  · exact h
  · exact h
  · rw [popupHandleEvent_batch]
    exact h

/-- Last-key bookkeeping never touches the batch. -/
theorem updateLastKey_batch (st : AppState) (e : Event) :
    (updateLastKey st e).ctx.batch = st.ctx.batch := by
  unfold updateLastKey
  split
  · split <;> rfl
  · rfl

/-- The mode-directed dispatch preserves distinctness of identities. -/
theorem dispatchEvent_nodup (st : AppState) (e : Event)
    (h : NodupIds st.ctx.batch) :
    NodupIds (dispatchEvent st e).ctx.batch := by
  unfold dispatchEvent
  split
  · rw [onCombo_batch]
    exact h
  · exact h
  · exact widgetsHandleEvent_nodup _ _ h

/-- The help hook never touches the batch. -/
theorem maybeHelp_batch (st : AppState) (e : Event) :
    (maybeHelp st e).ctx.batch = st.ctx.batch := by
  unfold maybeHelp
  split
  · exact onHelp_batch st e
  · rfl

/-- App::on preserves distinctness of identities. -/
theorem onEvent_nodup (st : AppState) (e : Event)
    (h : NodupIds st.ctx.batch) :
    NodupIds (onEvent st e).ctx.batch := by
  unfold onEvent
  split
  · exact h
  · rw [maybeHelp_batch]
    apply dispatchEvent_nodup
    rw [updateLastKey_batch]
    exact h

/-- Search-outcome handling never touches the batch. -/
theorem handleResMsg_batch (s : LoopState) (m : SearchQuery × SearchOutcome) :
    (handleResMsg s m).app.ctx.batch = s.app.ctx.batch := by
  unfold handleResMsg
  rcases m with ⟨q, o⟩
  cases o <;> rfl

/-- The download-outcome handler's effect on the batch is exactly the
per-identity retain loop (or nothing for a non-batch outcome). -/
theorem handleDl_batch (s : LoopState) (d : DownloadResult) :
    (handleDl s d).app.ctx.batch =
      (if d.batch then
        d.success_ids.foldl (fun b id => b.filter (fun i => i.id ≠ id))
          s.app.ctx.batch
      else s.app.ctx.batch) := by
  unfold handleDl
  have h1 := foldl_show_error_batch d.errors
  rcases hm : d.success_msg with _ | m <;> rcases hb : d.batch with _ | _ <;>
    by_cases hs : d.success_ids = [] <;>
      simp_all [Context.notify]

/-- The download-outcome handler preserves distinctness of identities. -/
theorem handleDl_nodup (s : LoopState) (d : DownloadResult)
    (h : NodupIds s.app.ctx.batch) :
    NodupIds (handleDl s d).app.ctx.batch := by
  rw [handleDl_batch]
  split
  · rw [retain_foldl_eq_filter]
    exact nodupIds_filter _ _ h
  · exact h

/-- The iteration top never touches the batch. -/
theorem iterTop_batch (s : LoopState) :
    (iterTop s).app.ctx.batch = s.app.ctx.batch := by
  unfold iterTop normalizeBatchMode applyDismiss drainErrors drainNotifs
  split <;> split <;> split <;> split <;> rfl

/-- The Loading dispatch never touches the batch. -/
theorem loadingDispatch_batch (s : LoopState) :
    (loadingDispatch s).1.app.ctx.batch = s.app.ctx.batch := by
  obtain ⟨⟨ctx, rwi, bw, sw, nw, pp, pk⟩, eq_, ec, rq, rc, dq, dc, ts, la, ni, pd, sl, ap, ha⟩ := s
  obtain ⟨m, lt, pg, us, ba, lk, rs, cn, er, no, qy, dm, sv⟩ := ctx
  cases m <;> try rfl
  case Loading k =>
    rcases la with _ | hh <;> cases k <;>
      rcases hsel : rwi.table.selected.bind
        (fun i => rs.response.items.get? i) with _ | it <;>
      simp only [loadingDispatch, Context.notify, hsel] <;>
      simp [loadingDispatch, Context.notify, hsel]

/-- Every branch of the inner wait loop preserves distinctness of
identities. -/
theorem innerStep_nodup (s : LoopState) (p : PollEnv)
    (h : NodupIds s.app.ctx.batch) :
    (match innerStep s p with
      | InnerOut.broke s2 => NodupIds s2.app.ctx.batch
      | InnerOut.contin s2 => NodupIds s2.app.ctx.batch
      | InnerOut.blockedOut s2 => NodupIds s2.app.ctx.batch
      | InnerOut.fatalOut s2 => NodupIds s2.app.ctx.batch) := by
  unfold innerStep
  cases hc : selectOnce s p
  case evt e =>
    exact onEvent_nodup _ _ h
  case tick =>
    by_cases h1 : p.sizeOk = true <;> by_cases h2 : p.updateChanged = true <;>
      simp [h1, h2, h]
  case res m =>
    simpa [handleResMsg_batch] using h
  case dl d =>
    exact handleDl_nodup _ _ h
  case fatal => exact h
  case blocked => exact h

/-- The inner wait loop preserves distinctness of identities. -/
theorem innerLoop_nodup (polls : List PollEnv) (s : LoopState)
    (h : NodupIds s.app.ctx.batch) :
    NodupIds (innerLoop s polls).app.ctx.batch := by
  induction polls generalizing s with
  | nil => exact h
  | cons p rest ih =>
    have hs := innerStep_nodup s p h
    unfold innerLoop
    cases hi : innerStep s p <;> rw [hi] at hs
    · exact hs
    · exact ih _ hs
    · exact hs
    · exact hs

/-- A full while-iteration preserves distinctness of identities. -/
theorem iterateLoop_nodup (s : LoopState) (polls : List PollEnv)
    (h : NodupIds s.app.ctx.batch) :
    NodupIds (iterateLoop s polls).app.ctx.batch := by
  unfold iterateLoop
  split
  · exact h
  split
  · exact h
  have h1 : NodupIds (iterTop s).app.ctx.batch := by
    rw [iterTop_batch]
    exact h
  have h2 : NodupIds (loadingDispatch (iterTop s)).1.app.ctx.batch := by
    rw [loadingDispatch_batch]
    exact h1
  dsimp only
  split
  · exact h2
  · exact innerLoop_nodup _ _ h2

/-- Every environment or loop step preserves distinctness of identities. -/
theorem step_nodup (s : LoopState) (a : Act)
    (h : NodupIds s.app.ctx.batch) :
    NodupIds (step s a).app.ctx.batch := by
  cases a with
  | deliverEvent e =>
    simp only [step]
    split <;> exact h
  | closeEvents => exact h
  | searchCompletes tid o =>
    simp only [step]
    split <;> exact h
  | dlCompletes d =>
    simp only [step]
    split <;> exact h
  | iter polls => exact iterateLoop_nodup _ _ h

/-- C5: in every state reachable from startup — under any interleaving of
delivered input events, input-channel closure, search-task completions,
download completions and loop iterations — the batch contains no two items
with the same identity: the only operations that add to the batch (the
space-key toggle and the visual-mode toggle) push an item only when no item
with that identity is present, and every other batch mutation (batch-pane
removal, download-outcome retain) only removes items. -/
theorem c5_batch_no_duplicates (acts : List Act) :
    ((run initState acts).app.ctx.batch.map (fun i => i.id)).Nodup := by
  suffices hgen : ∀ s, NodupIds s.app.ctx.batch →
      NodupIds (run s acts).app.ctx.batch by
    exact hgen initState (by simp [initState, Context.default, NodupIds])
  induction acts with
  | nil => exact fun s h => h
  | cons a rest ih =>
    intro s h
    exact ih (step s a) (step_nodup s a h)

/-! ### C10: batch non-empty when the batch widget receives input -/

/-- On a state whose mode is not Loading, the dispatch does nothing. -/
theorem loadingDispatch_of_not_loading (s : LoopState)
    (hk : ∀ k, s.app.ctx.mode ≠ Mode.Loading k) :
    loadingDispatch s = (s, false) := by
  unfold loadingDispatch
  cases hm : s.app.ctx.mode <;> first | rfl | exact absurd hm (hk _)

/-- The dispatch of a Loading mode leaves the mode Normal. -/
theorem loadingDispatch_mode_normal (s : LoopState) (k : LoadType)
    (hk : s.app.ctx.mode = Mode.Loading k) :
    (loadingDispatch s).1.app.ctx.mode = Mode.Normal := by
  obtain ⟨⟨ctx, rwi, bw, sw, nw, pp, pk⟩, eq_, ec, rq, rc, dq, dc, ts, la, ni, pd, sl, ap, ha⟩ := s
  obtain ⟨m, lt, pg, us, ba, lk, rs, cn, er, no, qy, dm, sv⟩ := ctx
  dsimp only at hk
  subst hk
  rcases la with _ | hh <;> cases k <;>
    rcases hsel : rwi.table.selected.bind
      (fun i => rs.response.items.get? i) with _ | it <;>
    simp only [loadingDispatch, Context.notify, hsel] <;>
    simp [loadingDispatch, Context.notify, hsel]

/-- After the batch-mode normalization, Batch mode implies a non-empty
batch. -/
theorem normalizeBatchMode_inv (t : LoopState)
    (hm : (normalizeBatchMode t).app.ctx.mode = Mode.Batch) :
    (normalizeBatchMode t).app.ctx.batch ≠ [] := by
  unfold normalizeBatchMode at hm ⊢
  by_cases hcond : t.app.ctx.mode = Mode.Batch ∧ t.app.ctx.batch.isEmpty
  · rw [if_pos hcond] at hm
    simp at hm
  · rw [if_neg hcond] at hm ⊢
    intro hempty
    exact hcond ⟨hm, by simp [hempty]⟩

/-- C10 (amended): the state on which input events are dispatched within an
iteration is the iteration top followed by the Loading dispatch; whenever
that state's mode is Batch (so the `widgets!` table routes the event to the
batch widget) the batch is non-empty — the top of every iteration resets
Mode from Batch to Normal when the batch is empty, and the Loading dispatch
never produces Batch mode or touches the batch — hence the go-to-bottom
operation's `batch.len() - 1` never underflows. The remove-selected
operation, however, is in bounds only when the stored batch-table selection
is below the batch length: the counterexample shows a reachable panic from a
stale selection. -/
theorem c10_amended (s : LoopState)
    (hmode : (loadingDispatch (iterTop s)).1.app.ctx.mode = Mode.Batch) :
    (loadingDispatch (iterTop s)).1.app.ctx.batch ≠ [] ∧
    (loadingDispatch (iterTop s)).1.app.ctx.batch.length - 1 <
      (loadingDispatch (iterTop s)).1.app.ctx.batch.length := by
  have hbatch := loadingDispatch_batch (iterTop s)
  have hmode2 : (iterTop s).app.ctx.mode = Mode.Batch := by
    by_cases hL : ∃ k, (iterTop s).app.ctx.mode = Mode.Loading k
    · rcases hL with ⟨k, hk⟩
      rw [loadingDispatch_mode_normal _ k hk] at hmode
      cases hmode
    · push_neg at hL
      rw [loadingDispatch_of_not_loading _ hL] at hmode
      exact hmode
  have hne : (iterTop s).app.ctx.batch ≠ [] := by
    have : iterTop s = normalizeBatchMode (applyDismiss (drainErrors (drainNotifs s))) := rfl
    rw [this] at hmode2 ⊢
    exact normalizeBatchMode_inv _ hmode2
  constructor
  · rw [hbatch]
    exact hne
  · rw [hbatch]
    have hpos : 0 < (iterTop s).app.ctx.batch.length :=
      List.length_pos.mpr hne
    omega

/-- A Batch-mode state with a singleton batch. -/
def c10WitnessState : LoopState :=
  { idleState with
    app := { idleState.app with
      ctx := { idleState.app.ctx with
        mode := Mode.Batch, batch := [itemA] } } }

/-- Witness for C10 (amended): a concrete Batch-mode state with a singleton
batch. -/
theorem c10_amended_witness :
    (loadingDispatch (iterTop c10WitnessState)).1.app.ctx.batch ≠ [] := by
  exact (c10_amended c10WitnessState (by decide)).1

/-- Key events used by the counterexample trace. -/
def keySpace : Event := Event.key (KeyCode.char ' ') KeyMods.noMods

/-- The j (move down) key. -/
def keyJ : Event := Event.key (KeyCode.char 'j') KeyMods.noMods

/-- The k (move up) key. -/
def keyK : Event := Event.key (KeyCode.char 'k') KeyMods.noMods

/-- The Tab key (switch between results and batch pane). -/
def keyTab : Event := Event.key KeyCode.tab KeyMods.noMods

/-- The shift-G (go to bottom) key. -/
def keyShiftG : Event := Event.key (KeyCode.char 'G') KeyMods.shift

/-- The counterexample trace: toggle five items into the batch, go to the
batch pane and select its bottom row (index 4), come back to the results
pane and toggle four of the items out again, then return to the batch pane
(still allowed: one item remains, so the mode is not reset) and press space.
The batch table still stores selection 4, `selected()` is captured before
any clamping, and `ctx.batch.remove(4)` on the one-element batch is out of
bounds. -/
def c10Acts : List Act :=
  ([keySpace, keyJ, keySpace, keyJ, keySpace, keyJ, keySpace, keyJ, keySpace,
    keyTab, keyShiftG, keyTab, keySpace, keyK, keySpace, keyK, keySpace,
    keyK, keySpace, keyTab, keySpace].map Act.deliverEvent) ++
  List.replicate 21 (Act.iter [quietPoll])

set_option maxRecDepth 16384 in
/-- Counterexample to C10: running the trace from the idle five-result state
reaches, in Batch mode with a non-empty (one-element) batch, a space-key
dispatch to the batch widget whose `ctx.batch.remove(i)` index (the stored
selection 4) is out of bounds — the modelled panic flag is set — so the
claim that the batch widget's remove-selected operation never goes out of
bounds is false; the empty-batch normalization alone does not prevent it. -/
theorem c10_counterexample :
    (run idleState c10Acts).app.panicked = true ∧
    (run idleState c10Acts).app.ctx.batch = [itemA] := by
  exact ⟨rfl, rfl⟩

/-! ### C1: page-change cancellation -/

/-- The next-page key (`n` with no modifiers). -/
def nextPageEvt : Event := Event.key (KeyCode.char 'n') KeyMods.noMods

/-- One loop iteration whose single poll has an unexpired animation timer. -/
def iterActQuiet : Act := Act.iter [quietPoll]

/-- With empty notification and error queues, no pending dismissal and a
mode other than Batch, the iteration top is the identity. -/
theorem iterTop_id (s : LoopState)
    (hn : s.app.ctx.notifications = [])
    (he : s.app.ctx.errors = [])
    (hd : s.app.ctx.should_dismiss_notifications = false)
    (hm : s.app.ctx.mode ≠ Mode.Batch) :
    iterTop s = s := by
  have e1 : drainNotifs s = s := by
    unfold drainNotifs
    rw [if_neg (by simp [hn])]
  have e2 : drainErrors s = s := by
    unfold drainErrors
    rw [if_neg (by simp [he])]
  have e3 : applyDismiss s = s := by
    unfold applyDismiss
    rw [if_neg (by simp [hd])]
  have e4 : normalizeBatchMode s = s := by
    unfold normalizeBatchMode
    rw [if_neg (by simp [hm])]
  unfold iterTop
  rw [e1, e2, e3, e4]

/-- Handling the next-page key in Normal mode with a next page available:
the page advances and the mode becomes Loading(Searching); the last pressed
key is recorded. -/
theorem onEvent_nextPage (st : AppState)
    (hm : st.ctx.mode = Mode.Normal)
    (hpage : st.ctx.page < st.ctx.results.response.last_page) :
    onEvent st nextPageEvt =
      { st with ctx := { st.ctx with
          mode := Mode.Loading LoadType.Searching,
          page := st.ctx.page + 1,
          last_key := "n" } } := by
  obtain ⟨ctx, rwi, bw, sw, nw, pp, pk⟩ := st
  obtain ⟨m, lt, pg, us, ba, lk, rs, cn, er, no, qy, dm, sv⟩ := ctx
  dsimp only at hm hpage
  subst hm
  simp only [onEvent, updateLastKey, dispatchEvent, widgetsHandleEvent,
    resultsHandleEvent, resultsHandleEvent.nextPage, maybeHelp, onHelp,
    key_to_string, nextPageEvt]
  simp [hpage]

/-- A loop iteration whose selected unit of work is the input event at the
head of the event queue: the event is consumed and handled, nothing else
changes. -/
theorem iterate_event (s : LoopState) (p : PollEnv) (e : Event)
    (rest : List Event)
    (hhalt : s.halted = none) (hquit : s.app.ctx.should_quit = false)
    (hn : s.app.ctx.notifications = [])
    (he : s.app.ctx.errors = [])
    (hd : s.app.ctx.should_dismiss_notifications = false)
    (hmB : s.app.ctx.mode ≠ Mode.Batch)
    (hmL : ∀ k, s.app.ctx.mode ≠ Mode.Loading k)
    (hq : s.evtQueue = e :: rest) :
    iterateLoop s [p] = { s with evtQueue := rest, app := onEvent s.app e } := by
  unfold iterateLoop
  rw [if_neg (by simp [hhalt]), if_neg (by simp [hquit])]
  rw [iterTop_id s hn he hd hmB]
  dsimp only
  rw [loadingDispatch_of_not_loading s hmL]
  dsimp only
  unfold innerLoop innerStep selectOnce
  rw [hq]
  rfl

/-- A loop iteration that dispatches Loading(Searching): the mode returns to
Normal, the outstanding-load marker is set, the previously outstanding
search task (per the stored abort handle) is aborted, and exactly one new
task is spawned carrying the freshly snapshotted query. -/
theorem iterate_dispatch_searching (s : LoopState) (p : PollEnv)
    (hhalt : s.halted = none) (hquit : s.app.ctx.should_quit = false)
    (hn : s.app.ctx.notifications = [])
    (he : s.app.ctx.errors = [])
    (hd : s.app.ctx.should_dismiss_notifications = false)
    (hmode : s.app.ctx.mode = Mode.Loading LoadType.Searching) :
    iterateLoop s [p] = { s with
      app := { s.app with ctx := { s.app.ctx with
        mode := Mode.Normal, load_type := some LoadType.Searching } },
      searchTasks := ((match s.last_load_abort with
        | some h => s.searchTasks.filter (fun t => t.id ≠ h)
        | none => s.searchTasks) ++
        [⟨s.nextTaskId,
          ⟨s.app.searchW.input, s.app.ctx.page, s.app.popups.category,
            s.app.popups.filter, s.app.popups.sort, s.app.ctx.user⟩,
          LoadType.Searching⟩]),
      last_load_abort := some s.nextTaskId,
      nextTaskId := s.nextTaskId + 1,
      spawnLog := s.spawnLog ++ [LoadType.Searching] } := by
  unfold iterateLoop
  rw [if_neg (by simp [hhalt]), if_neg (by simp [hquit])]
  rw [iterTop_id s hn he hd (by simp [hmode])]
  dsimp only
  obtain ⟨⟨ctx, rwi, bw, sw, nw, pp, pk⟩, eq_, ec, rq, rc, dq, dc, ts, la, ni, pd, sl, ap, ha⟩ := s
  obtain ⟨m, lt, pg, us, ba, lk, rs, cn, er, no, qy, dm, sv⟩ := ctx
  dsimp only at hmode
  subst hmode
  rcases la with _ | h0 <;> simp [loadingDispatch]

/-- A loop iteration whose selected unit of work is a successful search
outcome at the head of the result queue: the results table is reset, the
result set replaced wholesale, the outstanding-load marker and abort handle
cleared, and the originating query's page recorded as applied. -/
theorem iterate_apply (s : LoopState) (q : SearchQuery) (r : Results)
    (rest : List (SearchQuery × SearchOutcome))
    (hhalt : s.halted = none) (hquit : s.app.ctx.should_quit = false)
    (hn : s.app.ctx.notifications = [])
    (he : s.app.ctx.errors = [])
    (hd : s.app.ctx.should_dismiss_notifications = false)
    (hmB : s.app.ctx.mode ≠ Mode.Batch)
    (hmL : ∀ k, s.app.ctx.mode ≠ Mode.Loading k)
    (hq : s.evtQueue = [])
    (hr : s.resQueue = (q, SearchOutcome.ok r) :: rest) :
    iterateLoop s [quietPoll] = { s with
      resQueue := rest,
      app := { s.app with
        resultsW := s.app.resultsW.reset,
        ctx := { s.app.ctx with results := r, load_type := none } },
      appliedPages := s.appliedPages ++ [q.page],
      last_load_abort := none } := by
  unfold iterateLoop
  rw [if_neg (by simp [hhalt]), if_neg (by simp [hquit])]
  rw [iterTop_id s hn he hd hmB]
  dsimp only
  rw [loadingDispatch_of_not_loading s hmL]
  dsimp only
  unfold innerLoop innerStep selectOnce
  rw [hq, hr]
  simp [quietPoll, handleResMsg]

/-- Runs compose over concatenated action sequences. -/
theorem run_append (s : LoopState) (a b : List Act) :
    run s (a ++ b) = run (run s a) b :=
  List.foldl_append _ _ _ _

/-- The starting conditions of the C1 scenario: an idle loop (Normal mode,
nothing outstanding, nothing queued besides N pending next-page key events)
with at least N further pages available. -/
def C1Start (s0 : LoopState) (N : Nat) : Prop :=
  s0.halted = none ∧ s0.app.ctx.should_quit = false ∧
  s0.app.ctx.mode = Mode.Normal ∧
  s0.app.ctx.notifications = [] ∧ s0.app.ctx.errors = [] ∧
  s0.app.ctx.should_dismiss_notifications = false ∧
  s0.searchTasks = [] ∧ s0.last_load_abort = none ∧
  s0.resQueue = [] ∧
  s0.evtQueue = List.replicate N nextPageEvt ∧
  s0.app.ctx.page + N ≤ s0.app.ctx.results.response.last_page

/-- The query snapshotted by the j-th spawned search task of the scenario. -/
def c1Query (s0 : LoopState) (j : Nat) : SearchQuery :=
  ⟨s0.app.searchW.input, s0.app.ctx.page + j, s0.app.popups.category,
    s0.app.popups.filter, s0.app.popups.sort, s0.app.ctx.user⟩

/-- The loop state after 2·(i+1) iterations of the scenario: i+1 next-page
events consumed and dispatched, the first i spawned tasks aborted, exactly
one live task left. -/
def c1State (s0 : LoopState) (N i : Nat) : LoopState :=
  { s0 with
    app := { s0.app with ctx := { s0.app.ctx with
      mode := Mode.Normal,
      load_type := some LoadType.Searching,
      page := s0.app.ctx.page + (i + 1),
      last_key := "n" } },
    evtQueue := List.replicate (N - (i + 1)) nextPageEvt,
    searchTasks := [⟨s0.nextTaskId + i, c1Query s0 (i + 1), LoadType.Searching⟩],
    last_load_abort := some (s0.nextTaskId + i),
    nextTaskId := s0.nextTaskId + i + 1,
    spawnLog := s0.spawnLog ++ List.replicate (i + 1) LoadType.Searching }

/-- The first pair of iterations of the scenario: consume one next-page
event, then dispatch the first search task. -/
theorem c1_pair_base (s0 : LoopState) (N : Nat)
    (h : C1Start s0 N) (hN : 1 ≤ N) :
    run s0 [iterActQuiet, iterActQuiet] = c1State s0 N 0 := by
  obtain ⟨h1, h2, h3, h4, h5, h6, h7, h8, h9, h10, h11⟩ := h
  have hpage : s0.app.ctx.page < s0.app.ctx.results.response.last_page := by
    omega
  have hq : s0.evtQueue = nextPageEvt :: List.replicate (N - 1) nextPageEvt := by
    rw [h10]
    obtain ⟨n, rfl⟩ : ∃ n, N = n + 1 := ⟨N - 1, by omega⟩
    simp [List.replicate_succ]
  have e1 : step s0 iterActQuiet
      = { s0 with
          evtQueue := List.replicate (N - 1) nextPageEvt,
          app := onEvent s0.app nextPageEvt } :=
    iterate_event s0 quietPoll _ _ h1 h2 h4 h5 h6 (by simp [h3]) (by simp [h3]) hq
  have hrun : run s0 [iterActQuiet, iterActQuiet]
      = step (step s0 iterActQuiet) iterActQuiet := rfl
  rw [hrun, e1, onEvent_nextPage s0.app h3 hpage]
  have hstep : step ({ s0 with
      evtQueue := List.replicate (N - 1) nextPageEvt,
      app := { s0.app with ctx := { s0.app.ctx with
        mode := Mode.Loading LoadType.Searching,
        page := s0.app.ctx.page + 1, last_key := "n" } } } : LoopState)
        iterActQuiet
      = iterateLoop ({ s0 with
      evtQueue := List.replicate (N - 1) nextPageEvt,
      app := { s0.app with ctx := { s0.app.ctx with
        mode := Mode.Loading LoadType.Searching,
        page := s0.app.ctx.page + 1, last_key := "n" } } } : LoopState)
        [quietPoll] := rfl
  rw [hstep, iterate_dispatch_searching _ quietPoll (by simp [h1]) (by simp [h2])
    (by simp [h4]) (by simp [h5]) (by simp [h6]) (by simp)]
  simp [c1State, c1Query, h7, h8]

/-- Each further pair of iterations: consume the next next-page event, abort
the single outstanding task and spawn the next one. -/
theorem c1_pair_step (s0 : LoopState) (N i : Nat)
    (h : C1Start s0 N) (hi : i + 2 ≤ N) :
    run (c1State s0 N i) [iterActQuiet, iterActQuiet] = c1State s0 N (i + 1) := by
  obtain ⟨h1, h2, h3, h4, h5, h6, h7, h8, h9, h10, h11⟩ := h
  have hpage : (c1State s0 N i).app.ctx.page <
      (c1State s0 N i).app.ctx.results.response.last_page := by
    simp only [c1State]
    omega
  have hq : (c1State s0 N i).evtQueue
      = nextPageEvt :: List.replicate (N - (i + 2)) nextPageEvt := by
    simp only [c1State]
    have : N - (i + 1) = (N - (i + 2)) + 1 := by omega
    rw [this, List.replicate_succ]
  have e1 : step (c1State s0 N i) iterActQuiet
      = { c1State s0 N i with
          evtQueue := List.replicate (N - (i + 2)) nextPageEvt,
          app := onEvent (c1State s0 N i).app nextPageEvt } :=
    iterate_event _ quietPoll _ _ (by simp [c1State, h1]) (by simp [c1State, h2])
      (by simp [c1State, h4]) (by simp [c1State, h5]) (by simp [c1State, h6])
      (by simp [c1State]) (by simp [c1State]) hq
  have hrun : run (c1State s0 N i) [iterActQuiet, iterActQuiet]
      = step (step (c1State s0 N i) iterActQuiet) iterActQuiet := rfl
  have honE : onEvent (c1State s0 N i).app nextPageEvt
      = { (c1State s0 N i).app with ctx := { (c1State s0 N i).app.ctx with
          mode := Mode.Loading LoadType.Searching,
          page := (c1State s0 N i).app.ctx.page + 1,
          last_key := "n" } } :=
    onEvent_nextPage _ (by simp [c1State]) hpage
  rw [hrun, e1, honE]
  have hstep : ∀ t : LoopState, step t iterActQuiet = iterateLoop t [quietPoll] :=
    fun t => rfl
  rw [hstep, iterate_dispatch_searching _ quietPoll (by simp [c1State, h1])
    (by simp [c1State, h2]) (by simp [c1State, h4]) (by simp [c1State, h5])
    (by simp [c1State, h6]) (by simp [c1State])]
  simp only [c1State, c1Query]
  simp [List.replicate_succ', List.append_assoc]
  omega

/-- Running 2·(i+1) iterations from a C1 start reaches the invariant state:
one live search task (all earlier ones aborted), the right page, nothing
applied yet. -/
theorem c1_run_pairs (s0 : LoopState) (N : Nat) (h : C1Start s0 N) :
    ∀ i, i + 1 ≤ N →
      run s0 (List.replicate (2 * (i + 1)) iterActQuiet) = c1State s0 N i := by
  intro i
  induction i with
  | zero =>
    intro h1
    have h2 : List.replicate (2 * (0 + 1)) iterActQuiet
        = [iterActQuiet, iterActQuiet] := rfl
    rw [h2]
    exact c1_pair_base s0 N h h1
  | succ i ih =>
    intro hi
    have hsplit : List.replicate (2 * (i + 1 + 1)) iterActQuiet
        = List.replicate (2 * (i + 1)) iterActQuiet ++
          [iterActQuiet, iterActQuiet] := by
      have h2 : 2 * (i + 1 + 1) = 2 * (i + 1) + 2 := by ring
      rw [h2, List.replicate_add]
      rfl
    rw [hsplit, run_append, ih (by omega)]
    exact c1_pair_step s0 N i h (by omega)

/-- C1: for every sequence of N rapid "change page" inputs issued before any
search completes, exactly one search task's result is ever applied to the
result set — the one for the last page requested. After the N events are
consumed and dispatched: exactly N search tasks were spawned, the one live
task carries the query for page+N (every earlier task was aborted by its
successor's dispatch before it could send), the result queue is empty and
nothing has been applied (the result set is untouched); a completion of any
aborted task delivers nothing (its outcome is discarded — an aborted tokio
task never sends); and when the live task completes with any result r,
one further iteration applies exactly r, recording page+N as the single
applied page. -/
theorem c1_page_change_cancellation (s0 : LoopState) (N : Nat) (hN : 1 ≤ N)
    (h : C1Start s0 N) :
    (run s0 (List.replicate (2 * N) iterActQuiet)).searchTasks
        = [⟨s0.nextTaskId + (N - 1), c1Query s0 N, LoadType.Searching⟩] ∧
    (run s0 (List.replicate (2 * N) iterActQuiet)).resQueue = [] ∧
    (run s0 (List.replicate (2 * N) iterActQuiet)).appliedPages
        = s0.appliedPages ∧
    (run s0 (List.replicate (2 * N) iterActQuiet)).app.ctx.results
        = s0.app.ctx.results ∧
    (run s0 (List.replicate (2 * N) iterActQuiet)).spawnLog
        = s0.spawnLog ++ List.replicate N LoadType.Searching ∧
    (∀ tid o, tid ≠ s0.nextTaskId + (N - 1) →
      step (run s0 (List.replicate (2 * N) iterActQuiet))
          (Act.searchCompletes tid o)
        = run s0 (List.replicate (2 * N) iterActQuiet)) ∧
    (∀ r : Results,
      (run s0 (List.replicate (2 * N) iterActQuiet ++
          [Act.searchCompletes (s0.nextTaskId + (N - 1)) (SearchOutcome.ok r),
            iterActQuiet])).app.ctx.results = r ∧
      (run s0 (List.replicate (2 * N) iterActQuiet ++
          [Act.searchCompletes (s0.nextTaskId + (N - 1)) (SearchOutcome.ok r),
            iterActQuiet])).appliedPages
        = s0.appliedPages ++ [s0.app.ctx.page + N]) := by
  obtain ⟨n, rfl⟩ : ∃ n, N = n + 1 := ⟨N - 1, by omega⟩
  obtain ⟨h1, h2, h3, h4, h5, h6, h7, h8, h9, h10, h11⟩ := h
  have hmain := c1_run_pairs s0 (n + 1)
    ⟨h1, h2, h3, h4, h5, h6, h7, h8, h9, h10, h11⟩ n (by omega)
  have hsub : n + 1 - 1 = n := by omega
  rw [hsub, hmain]
  have hfind_neg : ∀ tid o, tid ≠ s0.nextTaskId + n →
      step (c1State s0 (n + 1) n) (Act.searchCompletes tid o)
        = c1State s0 (n + 1) n := by
    intro tid o hne
    simp only [step, c1State]
    rw [List.find?_cons_of_neg, List.find?_nil]
    simp only [decide_eq_true_eq]
    omega
  refine ⟨by simp [c1State], by simp [c1State, h9], by simp [c1State],
    by simp [c1State], by simp [c1State], hfind_neg, ?_⟩
  intro r
  rw [run_append, hmain]
  have hrun2 : run (c1State s0 (n + 1) n)
      [Act.searchCompletes (s0.nextTaskId + n) (SearchOutcome.ok r),
        iterActQuiet]
      = step (step (c1State s0 (n + 1) n)
          (Act.searchCompletes (s0.nextTaskId + n) (SearchOutcome.ok r)))
          iterActQuiet := rfl
  have hfind : (c1State s0 (n + 1) n).searchTasks.find?
      (fun t => t.id = s0.nextTaskId + n)
      = some ⟨s0.nextTaskId + n, c1Query s0 (n + 1), LoadType.Searching⟩ := by
    simp [c1State]
  have e5 : step (c1State s0 (n + 1) n)
      (Act.searchCompletes (s0.nextTaskId + n) (SearchOutcome.ok r))
      = { c1State s0 (n + 1) n with
          searchTasks := [],
          resQueue := [(c1Query s0 (n + 1), SearchOutcome.ok r)] } := by
    simp only [step]
    rw [hfind]
    simp [c1State, h9]
  rw [hrun2, e5]
  have hfin := iterate_apply ({ c1State s0 (n + 1) n with
      searchTasks := [],
      resQueue := [(c1Query s0 (n + 1), SearchOutcome.ok r)] } : LoopState)
    (c1Query s0 (n + 1)) r []
    (by simp [c1State, h1]) (by simp [c1State, h2]) (by simp [c1State, h4])
    (by simp [c1State, h5]) (by simp [c1State, h6]) (by simp [c1State])
    (by simp [c1State]) (by simp [c1State]) (by simp)
  have hstep2 : ∀ t : LoopState, step t iterActQuiet = iterateLoop t [quietPoll] :=
    fun t => rfl
  rw [hstep2, hfin]
  constructor
  · rfl
  · simp [c1State, c1Query]

/-- The spec's scenario start: page 1 of 5, three queued next-page presses,
nothing outstanding. -/
def c1WitnessState : LoopState :=
  { idleState with
    evtQueue := List.replicate 3 nextPageEvt,
    app := { idleState.app with
      ctx := { idleState.app.ctx with
        results := ⟨⟨[itemA, itemB, itemC, itemD, itemE], 5, 5⟩⟩ } } }

/-- Witness for C1: the spec scenario (three rapid next-page presses before
any response) at a concrete state — one live task for page 1+3 and, after
its completion, exactly that page applied. -/
theorem c1_page_change_cancellation_witness :
    (run c1WitnessState (List.replicate (2 * 3) iterActQuiet)).searchTasks
        = [⟨c1WitnessState.nextTaskId + (3 - 1), c1Query c1WitnessState 3,
            LoadType.Searching⟩] ∧
    (run c1WitnessState (List.replicate (2 * 3) iterActQuiet ++
        [Act.searchCompletes (c1WitnessState.nextTaskId + (3 - 1))
          (SearchOutcome.ok Results.default), iterActQuiet])).appliedPages
      = c1WitnessState.appliedPages ++ [c1WitnessState.app.ctx.page + 3] := by
  have hth := c1_page_change_cancellation c1WitnessState 3 (by decide)
    ⟨rfl, rfl, rfl, rfl, rfl, rfl, rfl, rfl, rfl, rfl, by decide⟩
  exact ⟨hth.1, (hth.2.2.2.2.2.2 Results.default).2⟩

end Nyaa
